import Mathlib

/-!
Shallow embedding of the gitgate request-admission pipeline: the input
sanitizer (`src/utils/validation.ts`), the per-key rate limiter
(`src/middleware/ratelimit.ts`), the TTL cache (`src/github/cache.ts`),
the trust adapters (`src/auth/jamf.ts`, `src/auth/tailscale.ts`,
`src/auth/mtls.ts`) and the two release routes of `src/server.ts`.

JavaScript strings are modelled as Lean `String` (a structure over
`List Char`); all character-level operations are implemented over
`String.data` so that every definition reduces in the kernel.  Machine
integers (millisecond timestamps, counters) are `Nat`; the JavaScript
`Math.max(0, a - b)` is exactly truncated `Nat` subtraction.  External
collaborators (node `isIP`, the WHATWG URL parser, SHA-256, X509 parsing,
the network) enter as explicit function or data parameters.
-/

set_option linter.unusedVariables false

/-! ## JavaScript string primitives -/

/-- Whitespace recognised by JavaScript `String.prototype.trim` (ASCII
whitespace plus no-break space and the BOM). -/
def jsWs (c : Char) : Bool :=
  c == ' ' || c == '\t' || c == '\n' || c == '\r' ||
  c == '\x0b' || c == '\x0c' || c == '\u00A0' || c == '\uFEFF'

/-- Character-list form of `String.prototype.trim`: drop whitespace from the
front, then from the back. -/
def jsTrimC (l : List Char) : List Char :=
  ((l.dropWhile jsWs).reverse.dropWhile jsWs).reverse

/-- JavaScript `value.trim()`. -/
def jsTrim (s : String) : String := ⟨jsTrimC s.data⟩

/-- Split a character list at every occurrence of a single separator
character, keeping empty pieces (JavaScript `split` with a string
separator). -/
def splitOnChar (sep : Char) : List Char → List (List Char)
  | [] => [[]]
  | c :: rest =>
    match splitOnChar sep rest with
    | [] => [[c]]
    | g :: gs => if c = sep then [] :: g :: gs else (c :: g) :: gs

/-- Split a character list on every character satisfying `p`, keeping empty
pieces; filtering out the empties afterwards models a JavaScript split on a
one-or-more character-class regex. -/
def splitRuns (p : Char → Bool) : List Char → List (List Char)
  | [] => [[]]
  | c :: rest =>
    match splitRuns p rest with
    | [] => [[c]]
    | g :: gs => if p c then [] :: g :: gs else (c :: g) :: gs

/-- Split a character list at the first occurrence of `sep`; `none` when
`sep` does not occur (JavaScript `indexOf` plus two slices). -/
def splitFirstChar (sep : Char) (l : List Char) : Option (List Char × List Char) :=
  if l.contains sep then
    some (l.takeWhile (fun c => c != sep), (l.dropWhile (fun c => c != sep)).tail)
  else none

/-- JavaScript `name.toLowerCase()` for ASCII header names. -/
def lowerStr (s : String) : String := ⟨s.data.map Char.toLower⟩

/-! ## Rate limiter (`src/middleware/ratelimit.ts`) -/

/-- Per-key rate limiter state (`RateLimitState` in `src/types.ts`).  The
optional `violations` field of the source is always read through `?? 0`, so
it is modelled as a plain `Nat`. -/
structure RateLimitState where
  requests : Nat
  reset_at : Nat
  blocked_until : Option Nat
  violations : Nat
deriving DecidableEq

/-- The record returned by `RateLimiter.consumeInternal`. -/
structure ConsumeResult where
  allowed : Bool
  remaining : Nat
  reset_at : Nat
deriving DecidableEq

/-- The lockout duration `Math.min(15 * 60 * 1000, 60000 * violations)`
computed in the at-limit branch of `consumeInternal`. -/
def blockMsOf (violations : Nat) : Nat :=
  min (15 * 60 * 1000) (60000 * violations)

/-- The tail of `RateLimiter.consumeInternal` once the state exists and the
lockout check has passed: window-expiry reset, under-limit increment, or
at-limit lockout. -/
def consumeUnlocked (limit now : Nat) (s : RateLimitState) :
    ConsumeResult × RateLimitState :=
  if s.reset_at < now then
    (⟨true, limit - 1, now + 60000⟩,
     ⟨1, now + 60000, s.blocked_until, s.violations - 1⟩)
  else if s.requests < limit then
    (⟨true, limit - (s.requests + 1), s.reset_at⟩,
     ⟨s.requests + 1, s.reset_at, s.blocked_until, s.violations⟩)
  else
    (⟨false, 0, now + blockMsOf (s.violations + 1)⟩,
     ⟨s.requests, s.reset_at, some (now + blockMsOf (s.violations + 1)),
      s.violations + 1⟩)

/-- `RateLimiter.consumeInternal` for one key: takes the current state of
that key (`none` when the key has no entry) and the current time, returns
the result record and the new state stored for the key. -/
def consumeInternal (limit now : Nat) (st : Option RateLimitState) :
    ConsumeResult × RateLimitState :=
  match st with
  | none => (⟨true, limit - 1, now + 60000⟩, ⟨1, now + 60000, none, 0⟩)
  | some s =>
    match s.blocked_until with
    | some b =>
      if now < b then (⟨false, 0, b⟩, s) else consumeUnlocked limit now s
    | none => consumeUnlocked limit now s

/-- `RateLimiter.getRemainingRequests`: side-effect-free projection.  Note
that the window-expiry check precedes the lockout check. -/
def getRemainingRequests (limit now : Nat) (st : Option RateLimitState) : Nat :=
  match st with
  | none => limit
  | some s =>
    if s.reset_at < now then limit
    else
      match s.blocked_until with
      | some b => if now < b then 0 else limit - s.requests
      | none => limit - s.requests

/-- `RateLimiter.getResetTime`: side-effect-free projection. -/
def getResetTime (now : Nat) (st : Option RateLimitState) : Nat :=
  match st with
  | none => now
  | some s =>
    match s.blocked_until with
    | some b => if s.reset_at < b then b else s.reset_at
    | none => s.reset_at

/-- The limiter key-to-state mapping (`this.limits`). -/
abbrev RL : Type := String → Option RateLimitState

/-- One `consume` / `isAllowed` call on the mapping: run `consumeInternal`
on the state of `key` and store the updated state back. -/
def rlConsume (limit now : Nat) (rl : RL) (key : String) : ConsumeResult × RL :=
  let p := consumeInternal limit now (rl key)
  (p.1, fun k => if k = key then some p.2 else rl k)

/-- Fold a sequence of `consume` calls for one key over a list of call
times. -/
def runConsume (limit : Nat) : List Nat → Option RateLimitState → Option RateLimitState
  | [], st => st
  | t :: ts, st => runConsume limit ts (some (consumeInternal limit t st).2)

/-- States of one limiter key reachable from the empty mapping by `consume`
calls at arbitrary times. -/
inductive RLReachable (limit : Nat) : Option RateLimitState → Prop where
  | init : RLReachable limit none
  | step (st : Option RateLimitState) (now : Nat) (h : RLReachable limit st) :
      RLReachable limit (some (consumeInternal limit now st).2)

/-! ## Posix path model (node `path` module, used by the sanitizer)

`resolveSafePath` and the cache use node `path.resolve` / `normalize` /
`relative` / `isAbsolute` with the posix separator.  They are modelled over
segment lists.  `resolve` is modelled for an absolute first argument, the
only way the repository calls it (the base is always `process.cwd()` or the
validated cache directory). -/

/-- node `path.posix.isAbsolute`. -/
def isAbsolute (s : String) : Bool :=
  match s.data with
  | '/' :: _ => true
  | _ => false

/-- The separator-delimited segments of a path, empty pieces dropped. -/
def pathSegs (s : String) : List String :=
  ((splitOnChar '/' s.data).map (fun l => String.mk l)).filter (fun x => x ≠ "")

/-- Process `.` and `..` segments the way node normalizes an absolute path:
`.` is dropped, `..` pops the previous segment and is clipped at the root.
The accumulator holds the output segments in reverse. -/
def normSegs (acc : List String) : List String → List String
  | [] => acc.reverse
  | seg :: rest =>
    if seg = "." then normSegs acc rest
    else if seg = ".." then normSegs acc.tail rest
    else normSegs (seg :: acc) rest

/-- Join segments under the root. -/
def joinAbs (segs : List String) : String :=
  "/" ++ String.intercalate "/" segs

/-- node `path.posix.normalize` on an absolute path (a trailing separator is
preserved unless the result is the root). -/
def normalizePosix (p : String) : String :=
  let core := joinAbs (normSegs [] (pathSegs p))
  if p.data.getLast? = some '/' ∧ core ≠ "/" then core ++ "/" else core

/-- node `path.posix.resolve base p` for an absolute `base`. -/
def resolvePosix (base p : String) : String :=
  if isAbsolute p then joinAbs (normSegs [] (pathSegs p))
  else joinAbs (normSegs [] (pathSegs base ++ pathSegs p))

/-- Length of the common leading run of two segment lists. -/
def commonLen : List String → List String → Nat
  | a :: as1, b :: bs1 => if a = b then commonLen as1 bs1 + 1 else 0
  | _, _ => 0

/-- node `path.posix.relative` for absolute arguments. -/
def relativePosix (fromP toP : String) : String :=
  let f := normSegs [] (pathSegs fromP)
  let t := normSegs [] (pathSegs toP)
  let c := commonLen f t
  String.intercalate "/" (List.replicate (f.length - c) ".." ++ t.drop c)

/-! ## Input sanitizer (`src/utils/validation.ts`) -/

def MAX_OWNER_REPO_LENGTH : Nat := 100
def MAX_VERSION_LENGTH : Nat := 200
def MAX_ASSET_LENGTH : Nat := 200
def MAX_HEADER_LENGTH : Nat := 2048

/-- Character class of `OWNER_REPO_PATTERN` (`[A-Za-z0-9_-]`). -/
def ownerRepoChar (c : Char) : Bool :=
  c.isAlphanum || c == '_' || c == '-'

/-- Character class of `TAG_PATTERN` (`[A-Za-z0-9._-]`), also the device-id
class. -/
def tagChar (c : Char) : Bool :=
  c.isAlphanum || c == '.' || c == '_' || c == '-'

/-- Character class of `ASSET_PATTERN` (`[A-Za-z0-9._+() -]`). -/
def assetChar (c : Char) : Bool :=
  c.isAlphanum || c == '.' || c == '_' || c == '+' || c == '(' || c == ')' ||
  c == ' ' || c == '-'

/-- Character class of the token-header pattern (`[A-Za-z0-9._~=-]`). -/
def tokenChar (c : Char) : Bool :=
  c.isAlphanum || c == '.' || c == '_' || c == '~' || c == '=' || c == '-'

/-- Character class of the user-header pattern (`[A-Za-z0-9._@+-]`). -/
def userChar (c : Char) : Bool :=
  c.isAlphanum || c == '.' || c == '_' || c == '@' || c == '+' || c == '-'

/-- A `^[class]+$` regex test: non-empty and every character in class. -/
def matchesAll (p : Char → Bool) (l : List Char) : Bool :=
  !l.isEmpty && l.all p

/-- A numeric identifier of the semver pattern: `0` or a nonzero-leading
digit run. -/
def numericIdent : List Char → Bool
  | [] => false
  | ['0'] => true
  | c :: rest => c.isDigit && !(c == '0') && rest.all Char.isDigit

/-- Character class of semver prerelease and build identifiers
(`[0-9A-Za-z-]`). -/
def preIdChar (c : Char) : Bool :=
  c.isAlphanum || c == '-'

/-- One-or-more dot-separated identifiers over `preIdChar`. -/
def dotIds (l : List Char) : Bool :=
  (splitOnChar '.' l).all (fun part => !part.isEmpty && part.all preIdChar)

/-- The `major.minor.patch` core of `SEMVER_PATTERN`. -/
def versionTriple (l : List Char) : Bool :=
  match splitOnChar '.' l with
  | [a, b, c] => numericIdent a && numericIdent b && numericIdent c
  | _ => false

/-- `SEMVER_PATTERN.test`: optional leading `v`, `major.minor.patch`,
optional `-prerelease` (whose identifiers may contain `-`), optional
`+build`.  `+` occurs in no other character class, so the build part starts
at the unique `+`; the version core contains no `-`, so the prerelease part
starts at the first `-`. -/
def semverTest (l : List Char) : Bool :=
  let l1 := match l with
    | 'v' :: rest => rest
    | _ => l
  match splitOnChar '+' l1 with
  | [core] =>
    (match splitFirstChar '-' core with
     | none => versionTriple core
     | some (ver, pre) => versionTriple ver && dotIds pre)
  | [core, build] =>
    (match splitFirstChar '-' core with
     | none => versionTriple core
     | some (ver, pre) => versionTriple ver && dotIds pre) && dotIds build
  | _ => false

/-- `validateOwnerRepo`. -/
def validateOwnerRepo (value : String) : Option String :=
  let trimmed := jsTrim value
  if trimmed.length = 0 ∨ MAX_OWNER_REPO_LENGTH < trimmed.length then none
  else if matchesAll ownerRepoChar trimmed.data then some trimmed
  else none

/-- `validateVersion`. -/
def validateVersion (value : String) : Option String :=
  let trimmed := jsTrim value
  if trimmed.length = 0 ∨ MAX_VERSION_LENGTH < trimmed.length then none
  else if semverTest trimmed.data || matchesAll tagChar trimmed.data then
    some trimmed
  else none

/-- The `includes("..")` substring test of `validateAssetName`. -/
def containsDotDot : List Char → Bool
  | [] => false
  | '.' :: '.' :: _ => true
  | _ :: rest => containsDotDot rest

/-- `validateAssetName`. -/
def validateAssetName (value : String) : Option String :=
  let trimmed := jsTrim value
  if trimmed.length = 0 ∨ MAX_ASSET_LENGTH < trimmed.length then none
  else if trimmed.data.contains '/' || trimmed.data.contains '\\' ||
      containsDotDot trimmed.data then none
  else if matchesAll assetChar trimmed.data then some trimmed
  else none

/-- `validateHeaderValue` (the `maxLength` argument defaults to
`MAX_HEADER_LENGTH` at every call site that omits it). -/
def validateHeaderValue (value : Option String) (maxLength : Nat) : Option String :=
  match value with
  | none => none
  | some v =>
    if v = "" then none
    else
      let trimmed := jsTrim v
      if trimmed.length = 0 ∨ maxLength < trimmed.length then none
      else if trimmed.data.contains '\r' || trimmed.data.contains '\n' ||
          trimmed.data.contains '\x00' then none
      else some trimmed

/-- `validateTokenHeader`. -/
def validateTokenHeader (value : Option String) : Option String :=
  match validateHeaderValue value MAX_HEADER_LENGTH with
  | none => none
  | some token =>
    if matchesAll tokenChar token.data then some token else none

/-- `validateUserHeader`. -/
def validateUserHeader (value : Option String) : Option String :=
  match validateHeaderValue value MAX_HEADER_LENGTH with
  | none => none
  | some user =>
    if !matchesAll userChar user.data ∨ MAX_OWNER_REPO_LENGTH < user.length then
      none
    else some user

/-- `validateDeviceHeader`. -/
def validateDeviceHeader (value : Option String) : Option String :=
  match validateHeaderValue value MAX_HEADER_LENGTH with
  | none => none
  | some device =>
    if !matchesAll tagChar device.data ∨ MAX_OWNER_REPO_LENGTH < device.length then
      none
    else some device

/-- `validateDeviceId`. -/
def validateDeviceId (value : Option String) : Option String :=
  match value with
  | none => none
  | some v =>
    if v = "" then none
    else
      let trimmed := jsTrim v
      if trimmed.length = 0 ∨ MAX_OWNER_REPO_LENGTH < trimmed.length then none
      else if matchesAll tagChar trimmed.data then some trimmed
      else none

/-- `parseForwardedFor`; `isIP` is node `net.isIP` (an external
collaborator), passed as a parameter. -/
def parseForwardedFor (isIP : String → Bool) (value : Option String) : String :=
  match value with
  | none => "0.0.0.0"
  | some v =>
    if v = "" then "0.0.0.0"
    else
      let first : String := ⟨jsTrimC ((splitOnChar ',' v.data).headD [])⟩
      if first = "" then "0.0.0.0"
      else if isIP first then first
      else
        let bracketHit : Bool :=
          (match first.data with | '[' :: _ => true | _ => false) &&
            first.data.contains ']'
        let inner : String := ⟨(first.data.tail).takeWhile (fun c => c != ']')⟩
        if bracketHit && isIP inner then inner
        else
          let ipv4Port : String := ⟨first.data.takeWhile (fun c => c != ':')⟩
          if isIP ipv4Port then ipv4Port else "0.0.0.0"

/-- `validateIpAddress`. -/
def validateIpAddress (isIP : String → Bool) (value : Option String) : Option String :=
  match value with
  | none => none
  | some v =>
    if v = "" then none
    else
      let trimmed := jsTrim v
      if isIP trimmed then some trimmed else none

/-- `getHeader` over the validated-header record, whose keys are stored
lowercase by `collectValidatedHeaders`. -/
def getHeader (headers : String → Option String) (name : String) : Option String :=
  headers (lowerStr name)

/-- The view of a parsed WHATWG URL used by `validateHttpsUrl`; the parser
itself is an external collaborator passed as a parameter. -/
structure UrlView where
  protocol : String
  username : String
  password : String
  hostname : String
  href : String
deriving DecidableEq

/-- `validateHttpsUrl`. -/
def validateHttpsUrl (parseUrl : String → Option UrlView) (value : Option String) :
    Option UrlView :=
  match value with
  | none => none
  | some v =>
    if v = "" then none
    else
      let trimmed := jsTrim v
      if trimmed.length = 0 ∨ 2048 < trimmed.length then none
      else
        match parseUrl trimmed with
        | none => none
        | some url =>
          if url.protocol ≠ "https:" then none
          else if url.username ≠ "" ∨ url.password ≠ "" then none
          else if url.hostname = "" then none
          else some url

/-- `resolveSafePath`. -/
def resolveSafePath (baseDir inputPath : String) : Option String :=
  let trimmed := jsTrim inputPath
  if trimmed.length = 0 ∨ 4096 < trimmed.length then none
  else if trimmed.data.contains '\x00' then none
  else
    let rawSegments :=
      ((splitRuns (fun c => c == '/' || c == '\\') trimmed.data).map
        (fun l => String.mk l)).filter (fun x => x ≠ "")
    if rawSegments.contains ".." then none
    else
      let resolved :=
        if isAbsolute trimmed then normalizePosix trimmed
        else resolvePosix baseDir trimmed
      if isAbsolute resolved then
        if isAbsolute trimmed then some resolved
        else
          let rel := relativePosix baseDir resolved
          if rel = ".." ∨ "../".data.isPrefixOf rel.data then none
          else some resolved
      else none

/-! ## Cache manager (`src/github/cache.ts`)

The on-disk store is a map from file path to the parsed `CacheEntry` the
file would deserialize to (`JSON.parse` of what `set` wrote; the
base64 round-trip of the payload is the identity and is elided).  SHA-256
(node `crypto.createHash`) is an external collaborator passed as a
parameter: `hashKeyHex` hashes a cache key for the file name, `sha256hex`
hashes payload bytes for the stored checksum. -/

/-- `CacheEntry` of `src/types.ts`; `data` holds the payload bytes. -/
structure CacheEntry where
  data : List Nat
  checksum : String
  timestamp : Nat
  ttl : Nat
deriving DecidableEq

/-- The cache directory contents: file path to parsed entry. -/
abbrev FS : Type := String → Option CacheEntry

namespace CacheManager

/-- `CacheManager.getCachePath`. -/
def getCachePath (hashKeyHex : String → String) (cacheDir key : String) : String :=
  resolvePosix cacheDir (hashKeyHex key ++ ".cache")

/-- `CacheManager.get`: absent file, or an entry past its TTL, is a miss. -/
def get (hashKeyHex : String → String) (cacheDir : String) (now : Nat)
    (fs : FS) (key : String) : Option (List Nat) :=
  match fs (getCachePath hashKeyHex cacheDir key) with
  | none => none
  | some entry =>
    if entry.ttl * 1000 < now - entry.timestamp then none
    else some entry.data

/-- `CacheManager.set`: recompute the checksum from the payload and
overwrite the entry for the key. -/
def set (hashKeyHex : String → String) (sha256hex : List Nat → String)
    (cacheDir : String) (ttl now : Nat) (fs : FS) (key : String)
    (data : List Nat) : FS :=
  let path := getCachePath hashKeyHex cacheDir key
  fun p => if p = path then some ⟨data, sha256hex data, now, ttl⟩ else fs p

/-- `CacheManager.getChecksum`: stored checksum of a live entry. -/
def getChecksum (hashKeyHex : String → String) (cacheDir : String) (now : Nat)
    (fs : FS) (key : String) : Option String :=
  match fs (getCachePath hashKeyHex cacheDir key) with
  | none => none
  | some entry =>
    if entry.ttl * 1000 < now - entry.timestamp then none
    else some entry.checksum

end CacheManager

/-! ## Trust adapters (`src/auth/jamf.ts`, `src/auth/tailscale.ts`,
`src/auth/mtls.ts`)

Each adapter returns `Except String (Option DeviceContext)`: `.error`
models the thrown configuration error, `.ok none` models
`not_authenticated`, and the single outbound HTTPS exchange is abstracted
as a `FetchResult` value describing what the network returned. -/

/-- `DeviceContext` of `src/types.ts`. -/
structure DeviceContext where
  device_id : String
  device_name : Option String
  user_id : Option String
  auth_method : String
  ip_address : String
  timestamp : Nat
deriving DecidableEq

/-- Outcome of one `fetchWithTimeout` exchange: a thrown network error or a
response with its `ok` flag and parsed JSON body (`none` when the body does
not parse or lacks the expected shape). -/
inductive FetchResult (β : Type) where
  | netError
  | resp (ok : Bool) (body : Option β)

/-- The JSON body shape read by the Jamf adapter. -/
structure JamfBody where
  device_id : Option String
  device_name : Option String
  user_id : Option String
deriving DecidableEq

/-- `authenticateJamf`.  The source computes `apiKey`/`apiSecret` as
string-or-null and throws on `!apiUrl || !apiKey || !apiSecret`: the JS
falsy test also rejects the empty string, modelled by the explicit
`key = "" ∨ secret = ""` branch (the env loader does produce `""` for a
missing variable). -/
def authenticateJamf (now : Nat) (isIP : String → Bool)
    (parseUrl : String → Option UrlView)
    (headers : String → Option String)
    (api_url api_key api_secret : Option String)
    (fetch : FetchResult JamfBody) : Except String (Option DeviceContext) :=
  match validateTokenHeader (getHeader headers "x-jamf-token") with
  | none => .ok none
  | some _jamfToken =>
    match validateHttpsUrl parseUrl api_url, api_key, api_secret with
    | some _apiUrl, some key, some secret =>
      if key = "" ∨ secret = "" then .error "Jamf configuration incomplete"
      else
      (match fetch with
       | .netError => .ok none
       | .resp ok body =>
         if !ok then .ok none
         else
           match body with
           | none => .ok none
           | some data =>
             match validateDeviceId data.device_id with
             | none => .ok none
             | some deviceId =>
               .ok (some ⟨deviceId, data.device_name, data.user_id, "jamf",
                 parseForwardedFor isIP (getHeader headers "x-forwarded-for"),
                 now⟩))
    | _, _, _ => .error "Jamf configuration incomplete"

/-- One entry of the device list returned by the Tailscale API. -/
structure TsDevice where
  id : String
  name : Option String
deriving DecidableEq

/-- The JSON body shape read by the Tailscale adapter; `devices = none`
models a body without a `devices` array. -/
structure TsBody where
  devices : Option (List TsDevice)
deriving DecidableEq

/-- `authenticateTailscale`. -/
def authenticateTailscale (now : Nat) (isIP : String → Bool)
    (headers : String → Option String)
    (api_key : Option String)
    (fetch : FetchResult TsBody) : Except String (Option DeviceContext) :=
  let tsUser := validateUserHeader (getHeader headers "x-tailscale-user")
  let tsDevice := validateDeviceHeader (getHeader headers "x-tailscale-device")
  let tsIP := validateIpAddress isIP (getHeader headers "x-tailscale-ip")
  match tsUser, tsDevice with
  | some user, some dev =>
    (match validateTokenHeader api_key with
     | none => .error "Tailscale API key not configured"
     | some _apiKey =>
       match fetch with
       | .netError => .ok none
       | .resp ok body =>
         if !ok then .ok none
         else
           match body with
           | none => .ok none
           | some data =>
             match data.devices with
             | none => .ok none
             | some devices =>
               match devices.find? (fun d => d.id == dev) with
               | none => .ok none
               | some device =>
                 match validateDeviceId (some dev) with
                 | none => .ok none
                 | some deviceId =>
                   .ok (some ⟨deviceId, device.name, some user, "tailscale",
                     (match tsIP with
                      | some ip => ip
                      | none => parseForwardedFor isIP
                          (getHeader headers "x-forwarded-for")),
                     now⟩))
  | _, _ => .ok none

/-! ### mTLS adapter -/

/-- State machine of `parseDistinguishedName`: scan the RFC-2253-style
string, a backslash escaping the next character, `,` and `/` delimiting
segments; each non-blank segment is pushed trimmed. -/
def dnSegsGo (escaped : Bool) (current : List Char) (acc : List (List Char)) :
    List Char → List (List Char)
  | [] => if jsTrimC current ≠ [] then acc ++ [jsTrimC current] else acc
  | ch :: rest =>
    if escaped then dnSegsGo false (current ++ [ch]) acc rest
    else if ch = '\\' then dnSegsGo true current acc rest
    else if ch = ',' ∨ ch = '/' then
      dnSegsGo false []
        (if jsTrimC current ≠ [] then acc ++ [jsTrimC current] else acc) rest
    else dnSegsGo false (current ++ [ch]) acc rest

/-- `parseDistinguishedName`, as the ordered list of `key = value` pairs
(the source groups values per key in a record preserving insertion order,
so the first value for a key is the first pair with that key here). -/
def parseDistinguishedName (input : String) : List (String × String) :=
  (dnSegsGo false [] [] input.data).filterMap fun seg =>
    match splitFirstChar '=' seg with
    | none => none
    | some (k, v) =>
      let key := jsTrimC k
      let value := jsTrimC v
      if key = [] ∨ value = [] then none
      else some (⟨key⟩, ⟨value⟩)

/-- The per-entry step of `parseSubjectAltNames`: the trimmed text after the
first `:`; an entry without `:` maps to the empty string (then filtered
out). -/
def sanEntryValue (e : String) : String :=
  if e.data.contains ':' then
    ⟨jsTrimC ((e.data.dropWhile (fun c => c != ':')).tail)⟩
  else ""

/-- `parseSubjectAltNames`. -/
def parseSubjectAltNames (value : Option String) : List String :=
  match value with
  | none => []
  | some v =>
    if v = "" then []
    else
      (((((splitOnChar ',' v.data).map (fun l => (⟨jsTrimC l⟩ : String))).filter
          (fun s => s ≠ "")).map sanEntryValue).filter (fun s => s ≠ ""))

/-- The view of a parsed `X509Certificate` used by `authenticateMTLS`:
`Date.parse` results of the validity bounds (`none` when not finite),
whether `verify` against the CA public key succeeds, the key-usage
extension, and the subject strings.  X509 parsing and signature checking
are node `crypto` collaborators, folded into this record and the
`parseCert` parameter. -/
structure X509View where
  validFromMs : Option Nat
  validToMs : Option Nat
  verifiedByCA : Bool
  keyUsage : Option (List String)
  subject : String
  subjectAltName : Option String
deriving DecidableEq

/-- `authenticateMTLS`; `loadCA` models `readFileSync` plus CA parsing
(`none` = thrown, caught, `null` returned), `parseCert` models
`new X509Certificate(clientCert)`. -/
def authenticateMTLS (now : Nat)
    (loadCA : String → Option Unit)
    (parseCert : String → Option X509View)
    (clientCert : Option String)
    (ca_cert_path : Option String) : Except String (Option DeviceContext) :=
  match clientCert with
  | none => .ok none
  | some pem =>
    if pem = "" then .ok none
    else
      match ca_cert_path with
      | none => .error "mTLS CA certificate path not configured"
      | some caPath =>
        if caPath = "" then .error "mTLS CA certificate path not configured"
        else
          match loadCA caPath with
          | none => .ok none
          | some _ =>
            match parseCert pem with
            | none => .ok none
            | some cert =>
              match cert.validFromMs, cert.validToMs with
              | some notBefore, some notAfter =>
                if now < notBefore ∨ notAfter < now then .ok none
                else if !cert.verifiedByCA then .ok none
                else if (match cert.keyUsage with
                         | some ku => !ku.contains "Digital Signature"
                         | none => false) then .ok none
                else
                  let subjectMap := parseDistinguishedName cert.subject
                  let altNames := parseSubjectAltNames cert.subjectAltName
                  let commonName :=
                    ((subjectMap.filter (fun p => p.1 = "CN")).head?).map Prod.snd
                  let candidate := altNames.head?.orElse (fun _ => commonName)
                  match validateDeviceId candidate with
                  | none => .ok none
                  | some deviceId =>
                    .ok (some ⟨deviceId, none, none, "mtls", "0.0.0.0", now⟩)
              | _, _ => .ok none

/-! ## Gateway routes (`src/server.ts`)

The two release routes are modelled as functions of the request inputs, the
dispatcher outcome, the upstream results and the shared limiter/cache
state.  The authentication dispatcher (`authenticateDevice`) and the GitHub
client live behind awaited calls, so their outcomes enter as parameters
(`device`, `upstream`, `getReleaseRes`, `download`).  The audit sink is
modelled as the list of `auditLogger.logAction` calls the handler makes;
the handler result carries the response status, that list, the updated
limiter and cache state, and the rate-limit / integrity headers set. -/

/-- One `logAction` call (`AuditLog` of `src/types.ts`): `success = true`
models `status: "success"`; `reason` and `cached` are the two detail keys
the routes pass. -/
structure AuditLog where
  timestamp : Nat
  device_id : String
  action : String
  resource : String
  success : Bool
  reason : Option String
  cached : Bool
deriving DecidableEq

/-- `ReleaseAsset` of `src/types.ts`, restricted to the fields the routes
read. -/
structure ReleaseAsset where
  id : Nat
  name : String
deriving DecidableEq

/-- `Release` of `src/types.ts`, restricted to the fields the routes
read. -/
structure Release where
  tag_name : String
  assets : List ReleaseAsset
deriving DecidableEq

/-- Everything a route handler produces: response status, the audit records
emitted, the updated limiter mapping and cache store, the rate-limit header
triple (limit, remaining, reset) once an identity key is resolved, and the
integrity/signature headers when set. -/
structure HandlerResult where
  status : Nat
  audits : List AuditLog
  rl : RL
  fs : FS
  rateHeaders : Option (Nat × Nat × Nat)
  checksumHeader : Option String
  sigHeader : Option String

/-- `GET /releases/:owner/:repo`.  A `ValidationError` becomes status 400
through `app.onError`, a `RateLimitError` 429; `upstream` is the
`listReleases` result (the GitHub client converts its own failures into an
empty list); `encodeReleases` is `Buffer.from(JSON.stringify(releases))`. -/
def releasesHandler (limit now : Nat) (isIP : String → Bool)
    (hashKeyHex : String → String) (sha256hex : List Nat → String)
    (cacheDir : String) (cacheTtl : Nat)
    (ownerP repoP : String)
    (headers : String → Option String)
    (device : Option DeviceContext)
    (upstream : List Release)
    (encodeReleases : List Release → List Nat)
    (rl : RL) (fs : FS) : HandlerResult :=
  match validateOwnerRepo ownerP, validateOwnerRepo repoP with
  | some owner, some repo =>
    (match device with
     | none =>
       let anonId := "anon:" ++ parseForwardedFor isIP (headers "x-forwarded-for")
       let p := rlConsume limit now rl anonId
       let rl1 := p.2
       let hdrs := some (limit, getRemainingRequests limit now (rl1 anonId),
         getResetTime now (rl1 anonId))
       if p.1.allowed then
         ⟨401,
          [⟨now, "unknown", "list_releases", owner ++ "/" ++ repo, false,
            none, false⟩],
          rl1, fs, hdrs, none, none⟩
       else ⟨429, [], rl1, fs, hdrs, none, none⟩
     | some dev =>
       let p := rlConsume limit now rl dev.device_id
       let rl1 := p.2
       let hdrs := some (limit, getRemainingRequests limit now (rl1 dev.device_id),
         getResetTime now (rl1 dev.device_id))
       if p.1.allowed then
         let cacheKey := "releases:" ++ owner ++ ":" ++ repo
         match CacheManager.get hashKeyHex cacheDir now fs cacheKey with
         | some _cached =>
           ⟨200,
            [⟨now, dev.device_id, "list_releases", owner ++ "/" ++ repo, true,
              none, true⟩],
            rl1, fs, hdrs, none, none⟩
         | none =>
           if upstream.length = 0 then
             ⟨404,
              [⟨now, dev.device_id, "list_releases", owner ++ "/" ++ repo,
                false, some "not_found", false⟩],
              rl1, fs, hdrs, none, none⟩
           else
             ⟨200,
              [⟨now, dev.device_id, "list_releases", owner ++ "/" ++ repo,
                true, none, false⟩],
              rl1,
              CacheManager.set hashKeyHex sha256hex cacheDir cacheTtl now fs
                cacheKey (encodeReleases upstream),
              hdrs, none, none⟩
       else
         ⟨429,
          [⟨now, dev.device_id, "list_releases", owner ++ "/" ++ repo, false,
            some "rate_limited", false⟩],
          rl1, fs, hdrs, none, none⟩)
  | _, _ => ⟨400, [], rl, fs, none, none, none⟩

/-- `GET /release/:owner/:repo/:version/:asset`.  `getReleaseRes` is the
`getRelease` result, `download` the `downloadAsset` result per asset id
(`none` = failure, throwing `ExternalServiceError`, status 502 through
`app.onError`), `signer` the loaded `AssetSigner.sign` when enabled. -/
def releaseHandler (limit now : Nat) (isIP : String → Bool)
    (hashKeyHex : String → String) (sha256hex : List Nat → String)
    (cacheDir : String) (cacheTtl : Nat)
    (ownerP repoP versionP assetP : String)
    (headers : String → Option String)
    (device : Option DeviceContext)
    (getReleaseRes : Option Release)
    (download : Nat → Option (List Nat))
    (signer : Option (List Nat → String))
    (rl : RL) (fs : FS) : HandlerResult :=
  match validateOwnerRepo ownerP, validateOwnerRepo repoP,
      validateVersion versionP, validateAssetName assetP with
  | some owner, some repo, some version, some assetName =>
    let resource := owner ++ "/" ++ repo ++ "/" ++ version ++ "/" ++ assetName
    (match device with
     | none =>
       let anonId := "anon:" ++ parseForwardedFor isIP (headers "x-forwarded-for")
       let p := rlConsume limit now rl anonId
       let rl1 := p.2
       let hdrs := some (limit, getRemainingRequests limit now (rl1 anonId),
         getResetTime now (rl1 anonId))
       if p.1.allowed then
         ⟨401,
          [⟨now, "unknown", "download_asset", resource, false, none, false⟩],
          rl1, fs, hdrs, none, none⟩
       else ⟨429, [], rl1, fs, hdrs, none, none⟩
     | some dev =>
       let p := rlConsume limit now rl dev.device_id
       let rl1 := p.2
       let hdrs := some (limit, getRemainingRequests limit now (rl1 dev.device_id),
         getResetTime now (rl1 dev.device_id))
       if p.1.allowed then
         let cacheKey :=
           "asset:" ++ owner ++ ":" ++ repo ++ ":" ++ version ++ ":" ++ assetName
         match CacheManager.get hashKeyHex cacheDir now fs cacheKey with
         | some cached =>
           ⟨200,
            [⟨now, dev.device_id, "download_asset", resource, true, none, true⟩],
            rl1, fs, hdrs,
            some ((CacheManager.getChecksum hashKeyHex cacheDir now fs
              cacheKey).getD ""),
            signer.map (fun s => s cached)⟩
         | none =>
           match getReleaseRes with
           | none =>
             ⟨404,
              [⟨now, dev.device_id, "download_asset", resource, false,
                some "release_not_found", false⟩],
              rl1, fs, hdrs, none, none⟩
           | some release =>
             match release.assets.find? (fun a => a.name == assetName) with
             | none =>
               ⟨404,
                [⟨now, dev.device_id, "download_asset", resource, false,
                  some "asset_not_found", false⟩],
                rl1, fs, hdrs, none, none⟩
             | some asset =>
               match download asset.id with
               | none =>
                 ⟨502,
                  [⟨now, dev.device_id, "download_asset", resource, false,
                    some "download_failed", false⟩],
                  rl1, fs, hdrs, none, none⟩
               | some data =>
                 ⟨200,
                  [⟨now, dev.device_id, "download_asset", resource, true,
                    none, false⟩],
                  rl1,
                  CacheManager.set hashKeyHex sha256hex cacheDir cacheTtl now
                    fs cacheKey data,
                  hdrs, some (sha256hex data),
                  signer.map (fun s => s data)⟩
       else
         ⟨429,
          [⟨now, dev.device_id, "download_asset", resource, false,
            some "rate_limited", false⟩],
          rl1, fs, hdrs, none, none⟩)
  | _, _, _, _ => ⟨400, [], rl, fs, none, none, none⟩

/-- One audit record carrying the identity (or `"unknown"`), the action
name, the logical resource path, and a status agreeing with the response
(success exactly for 200). -/
def auditOnce (dev : Option DeviceContext) (action resource : String)
    (R : HandlerResult) : Prop :=
  ∃ a, R.audits = [a] ∧
    a.device_id = (match dev with | some d => d.device_id | none => "unknown") ∧
    a.action = action ∧ a.resource = resource ∧
    (a.success = true ↔ R.status = 200)

/-! ## Rate limiter theorems -/

/-- Helper: once the window is open at `t0 + 60000` with `k` requests and a
clean record, consuming at times inside the window just counts. -/
theorem runConsume_window (limit t0 : Nat) (ts : List Nat) :
    ∀ (k : Nat), 1 ≤ k → k + ts.length ≤ limit →
      (∀ t ∈ ts, t ≤ t0 + 60000) →
      runConsume limit ts (some ⟨k, t0 + 60000, none, 0⟩) =
        some ⟨k + ts.length, t0 + 60000, none, 0⟩ := by
  induction ts with
  | nil => intro k _ _ _; simp [runConsume]
  | cons t ts ih =>
    intro k hk hlen hts
    have ht : t ≤ t0 + 60000 := hts t (by simp)
    have hreq : k < limit := by simp at hlen; omega
    have hstep : (consumeInternal limit t (some ⟨k, t0 + 60000, none, 0⟩)).2 =
        ⟨k + 1, t0 + 60000, none, 0⟩ := by
      have hnx : ¬ (t0 + 60000 < t) := by omega
      simp [consumeInternal, consumeUnlocked, hnx, hreq]
    have harith : k + 1 + ts.length = k + (t :: ts).length := by
      simp only [List.length_cons]; omega
    rw [runConsume, hstep, ih (k + 1) (by omega)
      (by simp at hlen ⊢; omega) (fun x hx => hts x (by simp [hx])), harith]

/-- Helper: `consumeUnlocked` never pushes the request counter past the
limit when it was within the limit. -/
theorem consumeUnlocked_requests_le (limit now : Nat) (s : RateLimitState)
    (hl : 1 ≤ limit) (hs : s.requests ≤ limit) :
    (consumeUnlocked limit now s).2.requests ≤ limit := by
  unfold consumeUnlocked
  split_ifs with h1 h2
  · exact hl
  · exact h2
  · exact hs

/-- C2: `consumeInternal` implements the specified per-key state machine:
no prior state creates `{requests = 1, reset_at = now + 60s}` and admits;
an active lockout denies with `remaining = 0`, reported reset
`locked_until`, and an unchanged state; an expired window resets the count
to 1, opens a new window, decays `violations` by one (floored at 0) and
admits; under the limit it increments and admits; at the limit it
increments `violations`, locks until `now + min(15min, 60s * violations)`
and denies. -/
theorem claim_C2_consume_state_machine (limit now : Nat)
    (st : Option RateLimitState) :
    (st = none →
      consumeInternal limit now st =
        (⟨true, limit - 1, now + 60000⟩, ⟨1, now + 60000, none, 0⟩)) ∧
    (∀ s b, st = some s → s.blocked_until = some b → now < b →
      consumeInternal limit now st = (⟨false, 0, b⟩, s)) ∧
    (∀ s, st = some s → (∀ b, s.blocked_until = some b → ¬ now < b) →
      s.reset_at < now →
      consumeInternal limit now st =
        (⟨true, limit - 1, now + 60000⟩,
         ⟨1, now + 60000, s.blocked_until, s.violations - 1⟩)) ∧
    (∀ s, st = some s → (∀ b, s.blocked_until = some b → ¬ now < b) →
      ¬ s.reset_at < now → s.requests < limit →
      consumeInternal limit now st =
        (⟨true, limit - (s.requests + 1), s.reset_at⟩,
         ⟨s.requests + 1, s.reset_at, s.blocked_until, s.violations⟩)) ∧
    (∀ s, st = some s → (∀ b, s.blocked_until = some b → ¬ now < b) →
      ¬ s.reset_at < now → ¬ s.requests < limit →
      consumeInternal limit now st =
        (⟨false, 0, now + blockMsOf (s.violations + 1)⟩,
         ⟨s.requests, s.reset_at, some (now + blockMsOf (s.violations + 1)),
          s.violations + 1⟩)) := by
  refine ⟨?_, ?_, ?_, ?_, ?_⟩
  · rintro rfl; rfl
  · rintro s b rfl hb hlt
    simp [consumeInternal, hb, hlt]
  · rintro s rfl hnb hexp
    cases hbu : s.blocked_until with
    | none => simp [consumeInternal, hbu, consumeUnlocked, hexp]
    | some b => simp [consumeInternal, hbu, hnb b hbu, consumeUnlocked, hexp]
  · rintro s rfl hnb hexp hunder
    cases hbu : s.blocked_until with
    | none => simp [consumeInternal, hbu, consumeUnlocked, hexp, hunder]
    | some b =>
      simp [consumeInternal, hbu, hnb b hbu, consumeUnlocked, hexp, hunder]
  · rintro s rfl hnb hexp hat
    cases hbu : s.blocked_until with
    | none => simp [consumeInternal, hbu, consumeUnlocked, hexp, hat]
    | some b =>
      simp [consumeInternal, hbu, hnb b hbu, consumeUnlocked, hexp, hat]

/-- C2 witness: the state machine evaluated at concrete inputs — creation
on first consume, and an at-limit denial that sets the first lockout. -/
theorem claim_C2_witness :
    consumeInternal 60 0 none =
      (⟨true, 59, 60000⟩, ⟨1, 60000, none, 0⟩) ∧
    consumeInternal 60 100 (some ⟨60, 200, none, 0⟩) =
      (⟨false, 0, 100 + blockMsOf 1⟩, ⟨60, 200, some (100 + blockMsOf 1), 1⟩) :=
  ⟨(claim_C2_consume_state_machine 60 0 none).1 rfl,
   (claim_C2_consume_state_machine 60 100 (some ⟨60, 200, none, 0⟩)).2.2.2.2
     ⟨60, 200, none, 0⟩ rfl (fun b hb => Option.noConfusion hb)
     (by decide) (by decide)⟩

/-- C3: with limit 60, the 61st consume inside one 60-second window is
denied with `remaining = 0` (and starts a 60s lockout); the at-limit branch
locks for `blockMsOf (violations + 1)`, which strictly increases with the
violation count until the 15-minute cap; and a window reset forgives
exactly one violation (floored at 0). -/
theorem claim_C3_sixtyfirst_denied_lockout_escalates :
    (∀ (t0 t61 : Nat) (ts : List Nat), ts.length = 59 →
      (∀ t ∈ ts, t ≤ t0 + 60000) → t61 ≤ t0 + 60000 →
      (consumeInternal 60 t61
        (runConsume 60 ts (some (consumeInternal 60 t0 none).2))).1 =
        ⟨false, 0, t61 + 60000⟩) ∧
    (∀ (limit now : Nat) (s : RateLimitState),
      (∀ b, s.blocked_until = some b → ¬ now < b) → ¬ s.reset_at < now →
      ¬ s.requests < limit →
      (consumeInternal limit now (some s)).2.blocked_until =
        some (now + blockMsOf (s.violations + 1))) ∧
    (∀ v, v + 1 ≤ 15 → blockMsOf v < blockMsOf (v + 1)) ∧
    (∀ v, blockMsOf v ≤ 15 * 60 * 1000) ∧
    (∀ (limit now : Nat) (s : RateLimitState),
      (∀ b, s.blocked_until = some b → ¬ now < b) → s.reset_at < now →
      (consumeInternal limit now (some s)).2.violations = s.violations - 1) := by
  refine ⟨?_, ?_, ?_, ?_, ?_⟩
  · intro t0 t61 ts hlen hts ht61
    have h0 : (consumeInternal 60 t0 none).2 = ⟨1, t0 + 60000, none, 0⟩ := rfl
    rw [h0, runConsume_window 60 t0 ts 1 (by omega) (by omega) hts]
    have h60 : (1 : Nat) + ts.length = 60 := by omega
    rw [h60]
    have hnx : ¬ (t0 + 60000 < t61) := by omega
    have hat : ¬ ((60 : Nat) < 60) := by omega
    simp [consumeInternal, consumeUnlocked, hnx, hat]
    have : blockMsOf 1 = 60000 := by decide
    simp [this]
  · intro limit now s hnb hexp hat
    cases hbu : s.blocked_until with
    | none => simp [consumeInternal, hbu, consumeUnlocked, hexp, hat]
    | some b =>
      simp [consumeInternal, hbu, hnb b hbu, consumeUnlocked, hexp, hat]
  · intro v hv
    simp only [blockMsOf]
    omega
  · intro v
    simp only [blockMsOf]
    omega
  · intro limit now s hnb hexp
    cases hbu : s.blocked_until with
    | none => simp [consumeInternal, hbu, consumeUnlocked, hexp]
    | some b => simp [consumeInternal, hbu, hnb b hbu, consumeUnlocked, hexp]

/-- C3 witness: 61 consumes at time 0 with limit 60 — the 61st is denied
with remaining 0; and the second lockout is strictly longer than the
first. -/
theorem claim_C3_witness :
    (consumeInternal 60 0
      (runConsume 60 (List.replicate 59 0) (some (consumeInternal 60 0 none).2))).1 =
      ⟨false, 0, 60000⟩ ∧ blockMsOf 1 < blockMsOf 2 :=
  ⟨claim_C3_sixtyfirst_denied_lockout_escalates.1 0 0 (List.replicate 59 0)
     (by simp) (by intro t ht; have := List.eq_of_mem_replicate ht; omega)
     (by omega),
   claim_C3_sixtyfirst_denied_lockout_escalates.2.2.1 1 (by omega)⟩

/-- C9: in every reachable state of a limiter key, the window request count
never exceeds the configured limit (locked or not, for a positive limit);
and any lockout bound present after a consume step was either already
stored or was just set strictly in the future of that step. -/
theorem claim_C9_window_invariant_lockout_future (limit : Nat) :
    (∀ st s, 1 ≤ limit → RLReachable limit st → st = some s →
      s.requests ≤ limit) ∧
    (∀ (st : Option RateLimitState) (now b : Nat),
      (consumeInternal limit now st).2.blocked_until = some b →
      (∃ s, st = some s ∧ s.blocked_until = some b) ∨ now < b) := by
  constructor
  · intro st s hl hr heq
    induction hr generalizing s with
    | init => simp at heq
    | step st' now' h ih =>
      rw [Option.some.injEq] at heq
      subst heq
      cases st' with
      | none =>
        show (consumeInternal limit now' none).2.requests ≤ limit
        simpa [consumeInternal] using hl
      | some s' =>
        have hs' : s'.requests ≤ limit := ih s' rfl
        cases hbu : s'.blocked_until with
        | some b =>
          by_cases hlt : now' < b
          · simpa [consumeInternal, hbu, hlt] using hs'
          · simpa [consumeInternal, hbu, hlt] using
              consumeUnlocked_requests_le limit now' s' hl hs'
        | none =>
          simpa [consumeInternal, hbu] using
            consumeUnlocked_requests_le limit now' s' hl hs'
  · intro st now b hb
    cases st with
    | none => simp [consumeInternal] at hb
    | some s =>
      cases hbu : s.blocked_until with
      | some b0 =>
        by_cases hlt : now < b0
        · simp [consumeInternal, hbu, hlt] at hb
          exact Or.inl ⟨s, rfl, by rw [hbu, hb]⟩
        · rw [consumeInternal] at hb
          simp only [hbu, hlt, if_false] at hb
          unfold consumeUnlocked at hb
          split_ifs at hb with h1 h2
          · exact Or.inl ⟨s, rfl, by simpa [hbu] using hb⟩
          · exact Or.inl ⟨s, rfl, by simpa [hbu] using hb⟩
          · simp at hb
            right
            have : 0 < blockMsOf (s.violations + 1) := by
              simp only [blockMsOf]; omega
            omega
      | none =>
        rw [consumeInternal] at hb
        simp only [hbu] at hb
        unfold consumeUnlocked at hb
        split_ifs at hb with h1 h2
        · simp [hbu] at hb
        · simp [hbu] at hb
        · simp at hb
          right
          have : 0 < blockMsOf (s.violations + 1) := by
            simp only [blockMsOf]; omega
          omega

/-- C9 witness: the state after one consume from scratch is reachable and
satisfies the bound; and a lockout set at time 100 lies in the future. -/
theorem claim_C9_witness :
    (consumeInternal 60 0 none).2.requests ≤ 60 ∧
    ((∃ s, some (⟨60, 200, none, 0⟩ : RateLimitState) = some s ∧
        s.blocked_until = some (100 + blockMsOf 1)) ∨ 100 < 100 + blockMsOf 1) :=
  ⟨(claim_C9_window_invariant_lockout_future 60).1
     (some (consumeInternal 60 0 none).2) (consumeInternal 60 0 none).2
     (by omega) (RLReachable.step none 0 RLReachable.init) rfl,
   (claim_C9_window_invariant_lockout_future 60).2
     (some ⟨60, 200, none, 0⟩) 100 (100 + blockMsOf 1) (by decide)⟩

/-- C10: for a key whose lockout is still active but whose window has
already expired, the side-effect-free `getRemainingRequests` reports the
full limit (its window-expiry check precedes its lockout check) while
`consumeInternal` still denies with remaining 0. -/
theorem claim_C10_remaining_full_while_locked (limit now : Nat)
    (s : RateLimitState) (b : Nat) (hb : s.blocked_until = some b)
    (hfut : now < b) (hexp : s.reset_at < now) :
    getRemainingRequests limit now (some s) = limit ∧
    (consumeInternal limit now (some s)).1 = ⟨false, 0, b⟩ := by
  constructor
  · simp [getRemainingRequests, hexp]
  · simp [consumeInternal, hb, hfut]

/-- C10 witness: a locked key with an expired window reports 60 remaining
while consume denies. -/
theorem claim_C10_witness :
    getRemainingRequests 60 50 (some ⟨60, 0, some 100, 1⟩) = 60 ∧
    (consumeInternal 60 50 (some ⟨60, 0, some 100, 1⟩)).1 = ⟨false, 0, 100⟩ :=
  claim_C10_remaining_full_while_locked 60 50 ⟨60, 0, some 100, 1⟩ 100 rfl
    (by decide) (by decide)

/-! ## Cache theorems -/

/-- C5: a `set` followed by a `get` within the TTL returns the stored
bytes; once `now - stored_at > ttl * 1000` the `get` reports absent even
though the backing file still holds the entry; the stored checksum is
recomputed from the payload at write time (the entry on disk is exactly
`{data, sha256(data), now, ttl}` — `set` takes no checksum input); and
`getChecksum` on a live entry equals the digest recomputed over the bytes
`get` returns. -/
theorem claim_C5_cache_roundtrip_ttl_checksum (hashKeyHex : String → String)
    (sha256hex : List Nat → String) (cacheDir : String) (ttl t0 : Nat)
    (fs : FS) (key : String) (data : List Nat) :
    (∀ now, now - t0 ≤ ttl * 1000 →
      CacheManager.get hashKeyHex cacheDir now
        (CacheManager.set hashKeyHex sha256hex cacheDir ttl t0 fs key data)
        key = some data) ∧
    (∀ now, ttl * 1000 < now - t0 →
      CacheManager.get hashKeyHex cacheDir now
        (CacheManager.set hashKeyHex sha256hex cacheDir ttl t0 fs key data)
        key = none ∧
      CacheManager.set hashKeyHex sha256hex cacheDir ttl t0 fs key data
        (CacheManager.getCachePath hashKeyHex cacheDir key) ≠ none) ∧
    (CacheManager.set hashKeyHex sha256hex cacheDir ttl t0 fs key data
      (CacheManager.getCachePath hashKeyHex cacheDir key) =
      some ⟨data, sha256hex data, t0, ttl⟩) ∧
    (∀ now b,
      CacheManager.get hashKeyHex cacheDir now
        (CacheManager.set hashKeyHex sha256hex cacheDir ttl t0 fs key data)
        key = some b →
      CacheManager.getChecksum hashKeyHex cacheDir now
        (CacheManager.set hashKeyHex sha256hex cacheDir ttl t0 fs key data)
        key = some (sha256hex b)) := by
  have hpath : CacheManager.set hashKeyHex sha256hex cacheDir ttl t0 fs key data
      (CacheManager.getCachePath hashKeyHex cacheDir key) =
      some ⟨data, sha256hex data, t0, ttl⟩ := by
    unfold CacheManager.set
    simp
  refine ⟨?_, ?_, hpath, ?_⟩
  · intro now h
    unfold CacheManager.get
    rw [hpath]
    show (if ttl * 1000 < now - t0 then none else some data) = some data
    rw [if_neg (by omega)]
  · intro now h
    constructor
    · unfold CacheManager.get
      rw [hpath]
      show (if ttl * 1000 < now - t0 then none else some data) = none
      rw [if_pos (by omega)]
    · rw [hpath]
      simp
  · intro now b hget
    unfold CacheManager.get at hget
    rw [hpath] at hget
    rw [show (match some (⟨data, sha256hex data, t0, ttl⟩ : CacheEntry) with
        | none => none
        | some entry =>
          if entry.ttl * 1000 < now - entry.timestamp then none
          else some entry.data) =
        (if ttl * 1000 < now - t0 then none else some data) from rfl] at hget
    by_cases hexp : ttl * 1000 < now - t0
    · rw [if_pos hexp] at hget
      cases hget
    · rw [if_neg hexp] at hget
      unfold CacheManager.getChecksum
      rw [hpath]
      show (if ttl * 1000 < now - t0 then none else some (sha256hex data)) =
        some (sha256hex b)
      rw [if_neg hexp]
      rw [Option.some.injEq] at hget
      rw [hget]

/-- C5 witness: a concrete store, read back live at the write instant,
absent 2000ms later with TTL 1s, with the matching checksum. -/
theorem claim_C5_witness :
    CacheManager.get (fun _ => "h") "/cache" 0
      (CacheManager.set (fun _ => "h") (fun _ => "c") "/cache" 1 0
        (fun _ => none) "k" [1, 2]) "k" = some [1, 2] ∧
    CacheManager.get (fun _ => "h") "/cache" 2000
      (CacheManager.set (fun _ => "h") (fun _ => "c") "/cache" 1 0
        (fun _ => none) "k" [1, 2]) "k" = none ∧
    CacheManager.getChecksum (fun _ => "h") "/cache" 0
      (CacheManager.set (fun _ => "h") (fun _ => "c") "/cache" 1 0
        (fun _ => none) "k" [1, 2]) "k" = some "c" :=
  ⟨(claim_C5_cache_roundtrip_ttl_checksum (fun _ => "h") (fun _ => "c")
      "/cache" 1 0 (fun _ => none) "k" [1, 2]).1 0 (by omega),
   ((claim_C5_cache_roundtrip_ttl_checksum (fun _ => "h") (fun _ => "c")
      "/cache" 1 0 (fun _ => none) "k" [1, 2]).2.1 2000 (by omega)).1,
   (claim_C5_cache_roundtrip_ttl_checksum (fun _ => "h") (fun _ => "c")
      "/cache" 1 0 (fun _ => none) "k" [1, 2]).2.2.2 0 [1, 2]
     ((claim_C5_cache_roundtrip_ttl_checksum (fun _ => "h") (fun _ => "c")
      "/cache" 1 0 (fun _ => none) "k" [1, 2]).1 0 (by omega))⟩

/-! ## Path safety theorems -/

/-- Helper: dropping a prefix by a predicate keeps every member that fails
the predicate. -/
theorem mem_dropWhile_of_neg (p : Char → Bool) (c : Char) (hc : p c = false) :
    ∀ l : List Char, c ∈ l → c ∈ l.dropWhile p := by
  intro l
  induction l with
  | nil => simp
  | cons a t ih =>
    intro hm
    by_cases ha : p a
    · rw [List.dropWhile_cons_of_pos ha]
      rcases List.mem_cons.mp hm with rfl | h
      · rw [ha] at hc; cases hc
      · exact ih h
    · rw [List.dropWhile_cons_of_neg ha]
      exact hm

/-- Helper: trimming only removes whitespace, so a non-whitespace member of
the input survives. -/
theorem mem_jsTrimC (c : Char) (hc : jsWs c = false) (l : List Char)
    (hm : c ∈ l) : c ∈ jsTrimC l := by
  unfold jsTrimC
  rw [List.mem_reverse]
  exact mem_dropWhile_of_neg jsWs c hc _
    (List.mem_reverse.mpr (mem_dropWhile_of_neg jsWs c hc l hm))

/-- C8 counterexample: an absolute input that escapes the base directory is
accepted, not rejected — `resolveSafePath "/base" "/etc/passwd"` returns
the path (whose relative form from the base starts with a parent
traversal). -/
theorem claim_C8_counterexample :
    resolveSafePath "/base" "/etc/passwd" = some "/etc/passwd" ∧
    isAbsolute "/etc/passwd" = true ∧
    relativePosix "/base" "/etc/passwd" = "../etc/passwd" := by
  refine ⟨by decide, by decide, by decide⟩

/-- C8 (amended): `resolveSafePath` rejects inputs containing NUL bytes and
inputs with a `..` path segment; an accepted absolute input is returned
normalized with no base-containment check; and every accepted relative
input resolves to a path under the base (its relative form from the base is
not `..` and does not start with `../`). -/
theorem claim_C8_path_safety :
    (∀ baseDir p, p.data.contains '\x00' = true →
      resolveSafePath baseDir p = none) ∧
    (∀ baseDir p,
      ((((splitRuns (fun c => c == '/' || c == '\\') (jsTrim p).data).map
        (fun l => String.mk l)).filter (fun x => x ≠ "")).contains ".." = true) →
      resolveSafePath baseDir p = none) ∧
    (∀ baseDir p r, resolveSafePath baseDir p = some r →
      isAbsolute (jsTrim p) = false →
      relativePosix baseDir r ≠ ".." ∧
      "../".data.isPrefixOf (relativePosix baseDir r).data = false) ∧
    (∀ baseDir p r, resolveSafePath baseDir p = some r →
      isAbsolute (jsTrim p) = true → r = normalizePosix (jsTrim p)) := by
  refine ⟨?_, ?_, ?_, ?_⟩
  · intro baseDir p h
    have hmem : '\x00' ∈ p.data := by simpa using h
    have htr : (jsTrim p).data.contains '\x00' = true := by
      have : '\x00' ∈ (jsTrim p).data :=
        mem_jsTrimC '\x00' (by decide) p.data hmem
      simpa using this
    simp only [resolveSafePath]
    by_cases h1 : (jsTrim p).length = 0 ∨ 4096 < (jsTrim p).length
    · rw [if_pos h1]
    · rw [if_neg h1, if_pos htr]
  · intro baseDir p hseg
    simp only [resolveSafePath]
    by_cases h1 : (jsTrim p).length = 0 ∨ 4096 < (jsTrim p).length
    · rw [if_pos h1]
    · rw [if_neg h1]
      by_cases h2 : (jsTrim p).data.contains '\x00' = true
      · rw [if_pos h2]
      · rw [if_neg h2, if_pos hseg]
  · intro baseDir p r hres habs
    simp only [resolveSafePath] at hres
    by_cases h1 : (jsTrim p).length = 0 ∨ 4096 < (jsTrim p).length
    · rw [if_pos h1] at hres; cases hres
    rw [if_neg h1] at hres
    by_cases h2 : (jsTrim p).data.contains '\x00' = true
    · rw [if_pos h2] at hres; cases hres
    rw [if_neg h2] at hres
    by_cases h3 : ((((splitRuns (fun c => c == '/' || c == '\\')
        (jsTrim p).data).map (fun l => String.mk l)).filter
        (fun x => x ≠ "")).contains ".." = true)
    · rw [if_pos h3] at hres; cases hres
    rw [if_neg h3, habs] at hres
    rw [if_neg (show ¬ (false = true) by simp)] at hres
    by_cases h5 : isAbsolute (resolvePosix baseDir (jsTrim p)) = true
    · rw [if_pos h5] at hres
      rw [if_neg (show ¬ (false = true) by simp)] at hres
      by_cases h7 : relativePosix baseDir (resolvePosix baseDir (jsTrim p)) = ".." ∨
          "../".data.isPrefixOf
            (relativePosix baseDir (resolvePosix baseDir (jsTrim p))).data = true
      · rw [if_pos h7] at hres; cases hres
      · rw [if_neg h7] at hres
        rw [Option.some.injEq] at hres
        subst hres
        rw [not_or] at h7
        exact ⟨h7.1, eq_false_of_ne_true h7.2⟩
    · rw [if_neg h5] at hres; cases hres
  · intro baseDir p r hres habs
    simp only [resolveSafePath] at hres
    by_cases h1 : (jsTrim p).length = 0 ∨ 4096 < (jsTrim p).length
    · rw [if_pos h1] at hres; cases hres
    rw [if_neg h1] at hres
    by_cases h2 : (jsTrim p).data.contains '\x00' = true
    · rw [if_pos h2] at hres; cases hres
    rw [if_neg h2] at hres
    by_cases h3 : ((((splitRuns (fun c => c == '/' || c == '\\')
        (jsTrim p).data).map (fun l => String.mk l)).filter
        (fun x => x ≠ "")).contains ".." = true)
    · rw [if_pos h3] at hres; cases hres
    rw [if_neg h3, habs] at hres
    rw [if_pos (show (true = true) from rfl)] at hres
    by_cases h5 : isAbsolute (normalizePosix (jsTrim p)) = true
    · rw [if_pos h5] at hres
      rw [if_pos (show (true = true) from rfl)] at hres
      rw [Option.some.injEq] at hres
      exact hres.symm
    · rw [if_neg h5] at hres; cases hres

/-- C8 witness: the accepted relative input `sub/dir/file` resolves under
`/base`. -/
theorem claim_C8_witness :
    relativePosix "/base" "/base/sub/dir/file" ≠ ".." ∧
    "../".data.isPrefixOf (relativePosix "/base" "/base/sub/dir/file").data =
      false :=
  claim_C8_path_safety.2.2.1 "/base" "sub/dir/file" "/base/sub/dir/file"
    (by decide) (by decide)

/-! ## mTLS adapter theorems -/

/-- Helper: `dropWhile` is idempotent. -/
theorem dropWhile_idem (p : Char → Bool) (l : List Char) :
    (l.dropWhile p).dropWhile p = l.dropWhile p := by
  induction l with
  | nil => rfl
  | cons a t ih =>
    by_cases ha : p a
    · rw [List.dropWhile_cons_of_pos ha]; exact ih
    · rw [List.dropWhile_cons_of_neg ha, List.dropWhile_cons_of_neg ha]

/-- Helper: the head surviving a `dropWhile` fails the predicate. -/
theorem head?_dropWhile_neg (p : Char → Bool) (l : List Char) (a : Char)
    (h : (l.dropWhile p).head? = some a) : p a = false := by
  induction l with
  | nil => cases h
  | cons b t ih =>
    by_cases hb : p b
    · rw [List.dropWhile_cons_of_pos hb] at h; exact ih h
    · rw [List.dropWhile_cons_of_neg hb, List.head?_cons,
        Option.some.injEq] at h
      subst h
      exact eq_false_of_ne_true hb

/-- Helper: a list whose head fails the predicate is fixed by
`dropWhile`. -/
theorem dropWhile_eq_self_of_head (p : Char → Bool) (l : List Char)
    (h : ∀ a, l.head? = some a → p a = false) : l.dropWhile p = l := by
  cases l with
  | nil => rfl
  | cons a t =>
    exact List.dropWhile_cons_of_neg (by simp [h a rfl])

/-- Helper: the head of a nonempty list is a member. -/
theorem mem_of_head?_eq {α : Type} (l : List α) (a : α) (h : l.head? = some a) :
    a ∈ l := by
  cases l with
  | nil => cases h
  | cons b t =>
    rw [List.head?_cons, Option.some.injEq] at h
    subst h
    exact List.mem_cons_self b t

/-- Helper: `jsTrimC` is idempotent. -/
theorem jsTrimC_idem (l : List Char) : jsTrimC (jsTrimC l) = jsTrimC l := by
  unfold jsTrimC
  set A := l.dropWhile jsWs with hA
  set C := A.reverse.dropWhile jsWs with hC
  have hBA : ∃ t, C.reverse ++ t = A := by
    obtain ⟨t, ht⟩ := List.dropWhile_suffix (l := A.reverse) jsWs
    refine ⟨t.reverse, ?_⟩
    have : (t ++ C).reverse = A.reverse.reverse := by rw [ht]
    rw [List.reverse_append, List.reverse_reverse] at this
    exact this
  have h1 : C.reverse.dropWhile jsWs = C.reverse := by
    apply dropWhile_eq_self_of_head
    intro a ha
    obtain ⟨t, ht⟩ := hBA
    have hAhead : A.head? = some a := by
      rw [← ht, List.head?_append, ha]; rfl
    exact head?_dropWhile_neg jsWs l a (by rw [← hA]; exact hAhead)
  rw [h1, List.reverse_reverse, hC, dropWhile_idem]

/-- Helper: a successful `validateDeviceId` returns the trimmed
candidate. -/
theorem validateDeviceId_some (c d : String)
    (h : validateDeviceId (some c) = some d) : d = jsTrim c := by
  simp only [validateDeviceId] at h
  by_cases hc : c = ""
  · rw [if_pos hc] at h; cases h
  · rw [if_neg hc] at h
    split_ifs at h with h1 h2
    injection h with h
    exact h.symm

/-- Helper: subject-alternative-name entries come out of the parser already
trimmed. -/
theorem san_trim_fixed (v : Option String) (s : String)
    (h : s ∈ parseSubjectAltNames v) : jsTrim s = s := by
  cases v with
  | none => cases h
  | some str =>
    have hred : parseSubjectAltNames (some str) =
        if str = "" then []
        else ((((splitOnChar ',' str.data).map
          (fun l => (⟨jsTrimC l⟩ : String))).filter (fun s => s ≠ "")).map
          sanEntryValue).filter (fun s => s ≠ "") := rfl
    rw [hred] at h
    by_cases hs : str = ""
    · rw [if_pos hs] at h; cases h
    · rw [if_neg hs] at h
      rw [List.mem_filter] at h
      obtain ⟨hmem, hne⟩ := h
      rw [List.mem_map] at hmem
      obtain ⟨e, he, hse⟩ := hmem
      unfold sanEntryValue at hse
      split_ifs at hse with hcolon
      · rw [← hse]
        show jsTrim ⟨jsTrimC ((e.data.dropWhile (fun c => c != ':')).tail)⟩ =
          ⟨jsTrimC ((e.data.dropWhile (fun c => c != ':')).tail)⟩
        unfold jsTrim
        exact congrArg String.mk (jsTrimC_idem _)
      · exact absurd hse.symm (of_decide_eq_true hne)

/-- Helper: distinguished-name values come out of the parser already
trimmed. -/
theorem dn_value_trim_fixed (input : String) (kv : String × String)
    (h : kv ∈ parseDistinguishedName input) : jsTrim kv.2 = kv.2 := by
  unfold parseDistinguishedName at h
  rw [List.mem_filterMap] at h
  obtain ⟨seg, hseg, hf⟩ := h
  rcases hsplit : splitFirstChar '=' seg with _ | ⟨k, v⟩ <;>
    simp only [hsplit] at hf
  · cases hf
  · split_ifs at hf with hkv
    injection hf with hf
    rw [← hf]
    show jsTrim ⟨jsTrimC v⟩ = ⟨jsTrimC v⟩
    unfold jsTrim
    exact congrArg String.mk (jsTrimC_idem v)

/-- Helper: the adapter after the configuration, CA-load, parse and
validity-date extraction steps, written as the residual check chain. -/
theorem authenticateMTLS_checked (now : Nat) (loadCA : String → Option Unit)
    (parseCert : String → Option X509View) (pem caPath : String)
    (cert : X509View) (nb na : Nat)
    (hpem : pem ≠ "") (hca : caPath ≠ "")
    (hload : loadCA caPath = some ()) (hcert : parseCert pem = some cert)
    (hnb : cert.validFromMs = some nb) (hna : cert.validToMs = some na) :
    authenticateMTLS now loadCA parseCert (some pem) (some caPath) =
      if now < nb ∨ na < now then .ok none
      else if !cert.verifiedByCA then .ok none
      else if (match cert.keyUsage with
               | some ku => !ku.contains "Digital Signature"
               | none => false) then .ok none
      else
        match validateDeviceId
            ((parseSubjectAltNames cert.subjectAltName).head?.orElse
              (fun _ => ((parseDistinguishedName cert.subject).filter
                (fun p => p.1 = "CN")).head?.map Prod.snd)) with
        | none => .ok none
        | some deviceId =>
          .ok (some ⟨deviceId, none, none, "mtls", "0.0.0.0", now⟩) := by
  simp only [authenticateMTLS, if_neg hpem, if_neg hca, hload, hcert, hnb, hna]

/-- C6: the mTLS adapter checks, in order, that the validity window
contains the current time, that the client certificate verifies against
the CA public key, and — when the key-usage extension is present — that it
includes digital-signature capability; a parse failure of either
certificate, a non-finite validity date, a failed check, or a candidate
identifier rejected by the sanitizer yields `not_authenticated`; on
success the identity carries `device_id` equal to the first
subject-alternative-name entry when present, else the common name, with
the IP address defaulting to the `0.0.0.0` sentinel. -/
theorem claim_C6_mtls_verification (now : Nat) (loadCA : String → Option Unit)
    (parseCert : String → Option X509View) (pem caPath : String)
    (hpem : pem ≠ "") (hca : caPath ≠ "") :
    (parseCert pem = none →
      authenticateMTLS now loadCA parseCert (some pem) (some caPath) =
        .ok none) ∧
    (loadCA caPath = none →
      authenticateMTLS now loadCA parseCert (some pem) (some caPath) =
        .ok none) ∧
    (∀ cert, parseCert pem = some cert → loadCA caPath = some () →
      (cert.validFromMs = none ∨ cert.validToMs = none →
        authenticateMTLS now loadCA parseCert (some pem) (some caPath) =
          .ok none) ∧
      (∀ nb na, cert.validFromMs = some nb → cert.validToMs = some na →
        ((now < nb ∨ na < now) →
          authenticateMTLS now loadCA parseCert (some pem) (some caPath) =
            .ok none) ∧
        (¬(now < nb ∨ na < now) → cert.verifiedByCA = false →
          authenticateMTLS now loadCA parseCert (some pem) (some caPath) =
            .ok none) ∧
        (∀ ku, ¬(now < nb ∨ na < now) → cert.verifiedByCA = true →
          cert.keyUsage = some ku → ku.contains "Digital Signature" = false →
          authenticateMTLS now loadCA parseCert (some pem) (some caPath) =
            .ok none) ∧
        (¬(now < nb ∨ na < now) → cert.verifiedByCA = true →
          (match cert.keyUsage with
           | some ku => ku.contains "Digital Signature" = true
           | none => True) →
          validateDeviceId
            ((parseSubjectAltNames cert.subjectAltName).head?.orElse
              (fun _ => ((parseDistinguishedName cert.subject).filter
                (fun p => p.1 = "CN")).head?.map Prod.snd)) = none →
          authenticateMTLS now loadCA parseCert (some pem) (some caPath) =
            .ok none) ∧
        (∀ ctx,
          authenticateMTLS now loadCA parseCert (some pem) (some caPath) =
            .ok (some ctx) →
          ∃ c, (parseSubjectAltNames cert.subjectAltName).head?.orElse
              (fun _ => ((parseDistinguishedName cert.subject).filter
                (fun p => p.1 = "CN")).head?.map Prod.snd) = some c ∧
            ctx.device_id = c ∧ ctx.ip_address = "0.0.0.0" ∧
            ctx.auth_method = "mtls"))) := by
  refine ⟨?_, ?_, ?_⟩
  · intro hp
    simp only [authenticateMTLS, if_neg hpem, if_neg hca, hp]
    rcases loadCA caPath with _ | u
    · rfl
    · rfl
  · intro hl
    simp only [authenticateMTLS, if_neg hpem, if_neg hca, hl]
  · intro cert hcert hload
    constructor
    · intro hv
      simp only [authenticateMTLS, if_neg hpem, if_neg hca, hload, hcert]
      rcases hv with hnb | hna
      · rw [hnb]
      · rw [hna]
        rcases cert.validFromMs with _ | nb <;> rfl
    · intro nb na hnb hna
      have hchk := authenticateMTLS_checked now loadCA parseCert pem caPath
        cert nb na hpem hca hload hcert hnb hna
      refine ⟨?_, ?_, ?_, ?_, ?_⟩
      · intro hwin
        rw [hchk, if_pos hwin]
      · intro hwin hver
        rw [hchk, if_neg hwin, hver,
          if_pos (show (!false) = true from rfl)]
      · intro ku hwin hver hku hds
        rw [hchk, if_neg hwin, hver,
          if_neg (show ¬ (!true) = true by decide)]
        rw [if_pos (show (match cert.keyUsage with
            | some ku0 => !ku0.contains "Digital Signature"
            | none => false) = true by
          rw [hku]
          show (!ku.contains "Digital Signature") = true
          rw [hds]
          decide)]
      · intro hwin hver hkuok hvd
        have hC : ¬ (match cert.keyUsage with
            | some ku0 => !ku0.contains "Digital Signature"
            | none => false) = true := by
          cases hku : cert.keyUsage with
          | some ku =>
            have hc : ku.contains "Digital Signature" = true := by
              have h2 := hkuok
              rw [hku] at h2
              exact h2
            show ¬ (!ku.contains "Digital Signature") = true
            rw [hc]
            decide
          | none =>
            show ¬ (false = true)
            decide
        rw [hchk, if_neg hwin, hver,
          if_neg (show ¬ (!true) = true by decide), if_neg hC, hvd]
      · intro ctx hctx
        rw [hchk] at hctx
        by_cases hwin : now < nb ∨ na < now
        · rw [if_pos hwin] at hctx; cases hctx
        rw [if_neg hwin] at hctx
        by_cases hver : cert.verifiedByCA = true
        case neg =>
          rw [eq_false_of_ne_true hver] at hctx
          simp at hctx
        rw [hver] at hctx
        simp only [Bool.not_true, Bool.false_eq_true, if_false] at hctx
        have hctx2 : (match validateDeviceId
            ((parseSubjectAltNames cert.subjectAltName).head?.orElse
              (fun _ => ((parseDistinguishedName cert.subject).filter
                (fun p => p.1 = "CN")).head?.map Prod.snd)) with
          | none => (.ok none : Except String (Option DeviceContext))
          | some deviceId =>
            .ok (some ⟨deviceId, none, none, "mtls", "0.0.0.0", now⟩)) =
            .ok (some ctx) := by
          cases hku : cert.keyUsage with
          | some ku =>
            simp only [hku] at hctx
            by_cases hds : ku.contains "Digital Signature" = true
            · simp only [hds, Bool.not_true, Bool.false_eq_true,
                if_false] at hctx
              exact hctx
            · rw [eq_false_of_ne_true hds] at hctx
              simp at hctx
          | none =>
            simp only [hku] at hctx
            simpa using hctx
        clear hctx
        rcases hcand : (parseSubjectAltNames cert.subjectAltName).head?.orElse
            (fun _ => ((parseDistinguishedName cert.subject).filter
              (fun p => p.1 = "CN")).head?.map Prod.snd) with _ | c
        · rw [hcand] at hctx2
          simp [validateDeviceId] at hctx2
        · rw [hcand] at hctx2
          rcases hvd : validateDeviceId (some c) with _ | d
          · rw [hvd] at hctx2
            simp at hctx2
          · rw [hvd] at hctx2
            simp only [Except.ok.injEq, Option.some.injEq] at hctx2
            subst hctx2
            have hd : d = jsTrim c := validateDeviceId_some c d hvd
            have hcfix : jsTrim c = c := by
              rcases hsan : (parseSubjectAltNames cert.subjectAltName).head?
                  with _ | c1
              · rw [hsan] at hcand
                simp only [Option.orElse] at hcand
                rw [Option.map_eq_some'] at hcand
                obtain ⟨p, hp, hpc⟩ := hcand
                have hpm : p ∈ (parseDistinguishedName cert.subject).filter
                    (fun q => q.1 = "CN") := mem_of_head?_eq _ p hp
                have hpdn : p ∈ parseDistinguishedName cert.subject :=
                  (List.mem_filter.mp hpm).1
                rw [← hpc]
                exact dn_value_trim_fixed cert.subject p hpdn
              · rw [hsan] at hcand
                simp only [Option.orElse] at hcand
                injection hcand with hcand
                rw [← hcand]
                exact san_trim_fixed cert.subjectAltName c1
                  (mem_of_head?_eq _ c1 hsan)
            exact ⟨c, hcand, by show d = c; rw [hd, hcfix], rfl, rfl⟩

/-- C6 witness: a concrete in-window, CA-verified certificate with SAN
`DNS:dev-1.example` and CN `device-01` authenticates as device
`dev-1.example` with the sentinel IP. -/
theorem claim_C6_witness :
    ∃ c, (parseSubjectAltNames (some "DNS:dev-1.example")).head?.orElse
        (fun _ => ((parseDistinguishedName "CN=device-01").filter
          (fun p => p.1 = "CN")).head?.map Prod.snd) = some c ∧
      (⟨"dev-1.example", none, none, "mtls", "0.0.0.0", 50⟩ :
        DeviceContext).device_id = c ∧
      (⟨"dev-1.example", none, none, "mtls", "0.0.0.0", 50⟩ :
        DeviceContext).ip_address = "0.0.0.0" ∧
      (⟨"dev-1.example", none, none, "mtls", "0.0.0.0", 50⟩ :
        DeviceContext).auth_method = "mtls" :=
  ((((claim_C6_mtls_verification 50 (fun _ => some ())
      (fun _ => some ⟨some 0, some 100, true, some ["Digital Signature"],
        "CN=device-01", some "DNS:dev-1.example"⟩) "PEM" "/ca"
      (by decide) (by decide)).2.2
      ⟨some 0, some 100, true, some ["Digital Signature"], "CN=device-01",
        some "DNS:dev-1.example"⟩ rfl rfl).2 0 100 rfl rfl).2.2.2.2
      ⟨"dev-1.example", none, none, "mtls", "0.0.0.0", 50⟩ (by rfl))

/-! ## Adapter fail-closed theorems -/

/-- C7: each trust adapter converts request-time failures — a thrown
network error, a non-2xx response, a malformed body, a rejected device
identifier, a CA-load or certificate-parse failure — into
`not_authenticated` (`.ok none`) instead of propagating an exception; with
a usable configuration the adapters never produce `.error` at all; and an
`.error` can only arise from a missing or malformed required configuration
value (Jamf URL/key/secret — where an empty key or secret counts as
missing, per the JS falsy test — Tailscale API key, mTLS CA path). -/
theorem claim_C7_adapters_fail_closed :
    (∀ (now : Nat) (isIP : String → Bool) (parseUrl : String → Option UrlView)
      (headers : String → Option String)
      (api_url api_key api_secret : Option String) (fetch : FetchResult JamfBody)
      (u : UrlView) (k s : String),
      validateHttpsUrl parseUrl api_url = some u → api_key = some k →
      api_secret = some s → k ≠ "" → s ≠ "" →
      (fetch = .netError ∨ (∃ body, fetch = .resp false body) ∨
       fetch = .resp true none ∨
       (∃ data, fetch = .resp true (some data) ∧
         validateDeviceId data.device_id = none)) →
      authenticateJamf now isIP parseUrl headers api_url api_key api_secret
        fetch = .ok none) ∧
    (∀ (now : Nat) (isIP : String → Bool) (parseUrl : String → Option UrlView)
      (headers : String → Option String)
      (api_url api_key api_secret : Option String) (fetch : FetchResult JamfBody)
      (tok : String),
      validateTokenHeader (getHeader headers "x-jamf-token") = some tok →
      (validateHttpsUrl parseUrl api_url = none ∨ api_key = none ∨
        api_key = some "" ∨ api_secret = none ∨ api_secret = some "") →
      authenticateJamf now isIP parseUrl headers api_url api_key api_secret
        fetch = .error "Jamf configuration incomplete") ∧
    (∀ (now : Nat) (isIP : String → Bool) (parseUrl : String → Option UrlView)
      (headers : String → Option String)
      (api_url api_key api_secret : Option String) (fetch : FetchResult JamfBody)
      (e : String),
      authenticateJamf now isIP parseUrl headers api_url api_key api_secret
        fetch = .error e →
      validateHttpsUrl parseUrl api_url = none ∨ api_key = none ∨
        api_key = some "" ∨ api_secret = none ∨ api_secret = some "") ∧
    (∀ (now : Nat) (isIP : String → Bool) (headers : String → Option String)
      (api_key : Option String) (fetch : FetchResult TsBody) (tok : String),
      validateTokenHeader api_key = some tok →
      (fetch = .netError ∨ (∃ body, fetch = .resp false body) ∨
       fetch = .resp true none ∨ fetch = .resp true (some ⟨none⟩)) →
      authenticateTailscale now isIP headers api_key fetch = .ok none) ∧
    (∀ (now : Nat) (isIP : String → Bool) (headers : String → Option String)
      (api_key : Option String) (fetch : FetchResult TsBody)
      (user dev : String),
      validateUserHeader (getHeader headers "x-tailscale-user") = some user →
      validateDeviceHeader (getHeader headers "x-tailscale-device") = some dev →
      validateTokenHeader api_key = none →
      authenticateTailscale now isIP headers api_key fetch =
        .error "Tailscale API key not configured") ∧
    (∀ (now : Nat) (isIP : String → Bool) (headers : String → Option String)
      (api_key : Option String) (fetch : FetchResult TsBody) (e : String),
      authenticateTailscale now isIP headers api_key fetch = .error e →
      validateTokenHeader api_key = none) ∧
    (∀ (now : Nat) (loadCA : String → Option Unit)
      (parseCert : String → Option X509View) (pem caPath : String),
      pem ≠ "" → caPath ≠ "" →
      (loadCA caPath = none ∨ parseCert pem = none) →
      authenticateMTLS now loadCA parseCert (some pem) (some caPath) =
        .ok none) ∧
    (∀ (now : Nat) (loadCA : String → Option Unit)
      (parseCert : String → Option X509View) (pem : String),
      pem ≠ "" →
      authenticateMTLS now loadCA parseCert (some pem) none =
        .error "mTLS CA certificate path not configured" ∧
      authenticateMTLS now loadCA parseCert (some pem) (some "") =
        .error "mTLS CA certificate path not configured") ∧
    (∀ (now : Nat) (loadCA : String → Option Unit)
      (parseCert : String → Option X509View) (clientCert : Option String)
      (caOpt : Option String) (e : String),
      authenticateMTLS now loadCA parseCert clientCert caOpt = .error e →
      caOpt = none ∨ caOpt = some "") := by
  refine ⟨?_, ?_, ?_, ?_, ?_, ?_, ?_, ?_, ?_⟩
  · intro now isIP parseUrl headers api_url api_key api_secret fetch u k s
      hu hk hs hk0 hs0 hfail
    simp only [authenticateJamf, hu, hk, hs]
    rcases htok : validateTokenHeader (getHeader headers "x-jamf-token")
      with _ | tok
    · rfl
    · rw [if_neg (not_or.mpr ⟨hk0, hs0⟩)]
      rcases hfail with rfl | ⟨body, rfl⟩ | rfl | ⟨data, rfl, hdata⟩
      · rfl
      · rfl
      · rfl
      · simp [hdata]
  · intro now isIP parseUrl headers api_url api_key api_secret fetch tok
      htok hbad
    simp only [authenticateJamf, htok]
    rcases hbad with hu | hk | hk | hs | hs
    · rw [hu]
    · rw [hk]
      rcases hu2 : validateHttpsUrl parseUrl api_url with _ | u <;> rfl
    · rw [hk]
      rcases hu2 : validateHttpsUrl parseUrl api_url with _ | u
      · rfl
      · rcases hs2 : api_secret with _ | s
        · rfl
        · simp
    · rw [hs]
      rcases hu2 : validateHttpsUrl parseUrl api_url with _ | u
      · rfl
      · rcases api_key with _ | k <;> rfl
    · rw [hs]
      rcases hu2 : validateHttpsUrl parseUrl api_url with _ | u
      · rfl
      · rcases hk2 : api_key with _ | k
        · rfl
        · simp
  · intro now isIP parseUrl headers api_url api_key api_secret fetch e h
    rcases hu : validateHttpsUrl parseUrl api_url with _ | u
    · exact Or.inl rfl
    rcases hk : api_key with _ | k
    · exact Or.inr (Or.inl rfl)
    rcases hs : api_secret with _ | s
    · exact Or.inr (Or.inr (Or.inr (Or.inl rfl)))
    by_cases hke : k = ""
    · exact Or.inr (Or.inr (Or.inl (by rw [hke])))
    by_cases hse : s = ""
    · exact Or.inr (Or.inr (Or.inr (Or.inr (by rw [hse]))))
    exfalso
    simp only [authenticateJamf, hu, hk, hs] at h
    rcases htok : validateTokenHeader (getHeader headers "x-jamf-token")
      with _ | tok <;> rw [htok] at h
    · cases h
    · rw [if_neg (not_or.mpr ⟨hke, hse⟩)] at h
      rcases fetch with _ | ⟨ok, body⟩
      · cases h
      · rcases ok with _ | _
        · simp at h
        · rcases body with _ | data
          · simp at h
          · rcases hv : validateDeviceId data.device_id with _ | d <;>
              simp [hv] at h
  · intro now isIP headers api_key fetch tok htok hfail
    simp only [authenticateTailscale, htok]
    rcases hu : validateUserHeader (getHeader headers "x-tailscale-user")
      with _ | user
    · rcases hd : validateDeviceHeader (getHeader headers "x-tailscale-device")
        with _ | dev <;> rfl
    · rcases hd : validateDeviceHeader (getHeader headers "x-tailscale-device")
        with _ | dev
      · rfl
      · rcases hfail with rfl | ⟨body, rfl⟩ | rfl | rfl
        · rfl
        · rfl
        · rfl
        · rfl
  · intro now isIP headers api_key fetch user dev huser hdev htok
    simp only [authenticateTailscale, huser, hdev, htok]
  · intro now isIP headers api_key fetch e h
    rcases htok : validateTokenHeader api_key with _ | tok
    · exact rfl
    exfalso
    simp only [authenticateTailscale, htok] at h
    rcases hu : validateUserHeader (getHeader headers "x-tailscale-user")
      with _ | user <;> rw [hu] at h
    · rcases hd : validateDeviceHeader (getHeader headers "x-tailscale-device")
        with _ | dev <;> rw [hd] at h <;> cases h
    · rcases hd : validateDeviceHeader (getHeader headers "x-tailscale-device")
        with _ | dev <;> rw [hd] at h
      · cases h
      · rcases fetch with _ | ⟨ok, body⟩
        · cases h
        · rcases ok with _ | _
          · simp at h
          · rcases body with _ | data
            · simp at h
            · rcases data with ⟨devices⟩
              rcases devices with _ | devs
              · simp at h
              · simp only at h
                rcases hfind : devs.find? (fun d => d.id == dev)
                  with _ | device <;> rw [hfind] at h
                · cases h
                · rcases hv : validateDeviceId (some dev) with _ | d <;>
                    rw [hv] at h <;> cases h
  · intro now loadCA parseCert pem caPath hpem hca hfail
    simp only [authenticateMTLS, if_neg hpem, if_neg hca]
    rcases hfail with hl | hp
    · rw [hl]
    · rw [hp]
      rcases loadCA caPath with _ | u <;> rfl
  · intro now loadCA parseCert pem hpem
    constructor
    · simp only [authenticateMTLS, if_neg hpem]
    · simp only [authenticateMTLS, if_neg hpem]
      rfl
  · intro now loadCA parseCert clientCert caOpt e h
    rcases clientCert with _ | pem
    · cases h
    rcases hpem : decide (pem = "") with _ | _
    · rcases caOpt with _ | caPath
      · exact Or.inl rfl
      rcases hca : decide (caPath = "") with _ | _
      · exfalso
        have hpem2 : ¬ pem = "" := of_decide_eq_false hpem
        have hca2 : ¬ caPath = "" := of_decide_eq_false hca
        simp only [authenticateMTLS, if_neg hpem2, if_neg hca2] at h
        rcases hl : loadCA caPath with _ | u <;> simp only [hl] at h
        · cases h
        · rcases hp : parseCert pem with _ | cert <;> simp only [hp] at h
          · cases h
          · rcases hnb : cert.validFromMs with _ | nb <;> simp only [hnb] at h
            · cases h
            · rcases hna : cert.validToMs with _ | na <;> simp only [hna] at h
              · cases h
              · by_cases hwin : now < nb ∨ na < now
                · rw [if_pos hwin] at h; cases h
                · rw [if_neg hwin] at h
                  by_cases hver : (!cert.verifiedByCA) = true
                  · rw [if_pos hver] at h; cases h
                  · rw [if_neg hver] at h
                    by_cases hku : (match cert.keyUsage with
                        | some ku => !ku.contains "Digital Signature"
                        | none => false) = true
                    · rw [if_pos hku] at h; cases h
                    · rw [if_neg hku] at h
                      rcases hv : validateDeviceId
                          ((parseSubjectAltNames cert.subjectAltName).head?.orElse
                            (fun _ => ((parseDistinguishedName
                              cert.subject).filter
                              (fun p => p.1 = "CN")).head?.map Prod.snd))
                        with _ | d <;> rw [hv] at h <;> cases h
      · have hca2 : caPath = "" := of_decide_eq_true hca
        exact Or.inr (by rw [hca2])
    · have hpem2 : pem = "" := of_decide_eq_true hpem
      rw [hpem2] at h
      simp [authenticateMTLS] at h

/-- C7 witness: a network error with a complete Jamf configuration yields
`not_authenticated`; and a missing mTLS CA path raises the configuration
error. -/
theorem claim_C7_witness :
    authenticateJamf 0 (fun _ => false)
      (fun _ => some ⟨"https:", "", "", "jamf.example", "https://jamf.example"⟩)
      (fun _ => none) (some "https://jamf.example") (some "key") (some "sec")
      .netError = .ok none ∧
    authenticateMTLS 0 (fun _ => some ()) (fun _ => none) (some "PEM") none =
      .error "mTLS CA certificate path not configured" :=
  ⟨claim_C7_adapters_fail_closed.1 0 (fun _ => false)
     (fun _ => some ⟨"https:", "", "", "jamf.example", "https://jamf.example"⟩)
     (fun _ => none) (some "https://jamf.example") (some "key") (some "sec")
     .netError ⟨"https:", "", "", "jamf.example", "https://jamf.example"⟩
     "key" "sec" (by decide) rfl rfl (by decide) (by decide) (Or.inl rfl),
   (claim_C7_adapters_fail_closed.2.2.2.2.2.2.2.1 0 (fun _ => some ())
     (fun _ => none) "PEM" (by decide)).1⟩

/-! ## Route branch lemmas

Each lemma computes the handler result record for one terminal branch of
the route, under the hypotheses selecting that branch. -/

/-- Helper: a failed owner or repo validation throws `ValidationError`,
mapped by `app.onError` to status 400 with no audit record. -/
theorem releasesHandler_invalid (limit now : Nat) (isIP : String → Bool)
    (hashKeyHex : String → String) (sha256hex : List Nat → String)
    (cacheDir : String) (cacheTtl : Nat) (ownerP repoP : String)
    (headers : String → Option String) (upstream : List Release)
    (encodeReleases : List Release → List Nat) (rl : RL) (fs : FS)
    (device : Option DeviceContext)
    (h : validateOwnerRepo ownerP = none ∨ validateOwnerRepo repoP = none) :
    releasesHandler limit now isIP hashKeyHex sha256hex cacheDir cacheTtl
      ownerP repoP headers device upstream encodeReleases rl fs =
    ⟨400, [], rl, fs, none, none, none⟩ := by
  rcases h with h | h
  · simp [releasesHandler, h]
  · rcases hA : validateOwnerRepo ownerP with _ | o <;>
      simp [releasesHandler, hA, h]

/-- Helper: unauthenticated request, anonymous key admitted. -/
theorem releasesHandler_anon_allowed (limit now : Nat) (isIP : String → Bool)
    (hashKeyHex : String → String) (sha256hex : List Nat → String)
    (cacheDir : String) (cacheTtl : Nat) (ownerP repoP : String)
    (headers : String → Option String) (upstream : List Release)
    (encodeReleases : List Release → List Nat) (rl : RL) (fs : FS)
    (owner repo : String)
    (ho : validateOwnerRepo ownerP = some owner)
    (hr : validateOwnerRepo repoP = some repo)
    (hal : (rlConsume limit now rl ("anon:" ++ parseForwardedFor isIP (headers "x-forwarded-for"))).1.allowed = true) :
    releasesHandler limit now isIP hashKeyHex sha256hex cacheDir cacheTtl
      ownerP repoP headers none upstream encodeReleases rl fs =
    ⟨401, [⟨now, "unknown", "list_releases", owner ++ "/" ++ repo, false,
       none, false⟩],
     (rlConsume limit now rl ("anon:" ++ parseForwardedFor isIP (headers "x-forwarded-for"))).2, fs,
     some (limit,
       getRemainingRequests limit now ((rlConsume limit now rl ("anon:" ++ parseForwardedFor isIP (headers "x-forwarded-for"))).2
           ("anon:" ++ parseForwardedFor isIP (headers "x-forwarded-for"))),
       getResetTime now ((rlConsume limit now rl ("anon:" ++ parseForwardedFor isIP (headers "x-forwarded-for"))).2
           ("anon:" ++ parseForwardedFor isIP (headers "x-forwarded-for")))),
     none, none⟩ := by
  simp [releasesHandler, ho, hr, hal]

/-- Helper: unauthenticated request, anonymous key over its limit. -/
theorem releasesHandler_anon_denied (limit now : Nat) (isIP : String → Bool)
    (hashKeyHex : String → String) (sha256hex : List Nat → String)
    (cacheDir : String) (cacheTtl : Nat) (ownerP repoP : String)
    (headers : String → Option String) (upstream : List Release)
    (encodeReleases : List Release → List Nat) (rl : RL) (fs : FS)
    (owner repo : String)
    (ho : validateOwnerRepo ownerP = some owner)
    (hr : validateOwnerRepo repoP = some repo)
    (hal : (rlConsume limit now rl ("anon:" ++ parseForwardedFor isIP (headers "x-forwarded-for"))).1.allowed = false) :
    releasesHandler limit now isIP hashKeyHex sha256hex cacheDir cacheTtl
      ownerP repoP headers none upstream encodeReleases rl fs =
    ⟨429, [], (rlConsume limit now rl ("anon:" ++ parseForwardedFor isIP (headers "x-forwarded-for"))).2, fs,
     some (limit,
       getRemainingRequests limit now ((rlConsume limit now rl ("anon:" ++ parseForwardedFor isIP (headers "x-forwarded-for"))).2
           ("anon:" ++ parseForwardedFor isIP (headers "x-forwarded-for"))),
       getResetTime now ((rlConsume limit now rl ("anon:" ++ parseForwardedFor isIP (headers "x-forwarded-for"))).2
           ("anon:" ++ parseForwardedFor isIP (headers "x-forwarded-for")))),
     none, none⟩ := by
  simp [releasesHandler, ho, hr, hal]

/-- Helper: authenticated request denied by the limiter. -/
theorem releasesHandler_authed_denied (limit now : Nat) (isIP : String → Bool)
    (hashKeyHex : String → String) (sha256hex : List Nat → String)
    (cacheDir : String) (cacheTtl : Nat) (ownerP repoP : String)
    (headers : String → Option String) (upstream : List Release)
    (encodeReleases : List Release → List Nat) (rl : RL) (fs : FS)
    (dev : DeviceContext)
    (owner repo : String)
    (ho : validateOwnerRepo ownerP = some owner)
    (hr : validateOwnerRepo repoP = some repo)
    (hal : (rlConsume limit now rl dev.device_id).1.allowed = false) :
    releasesHandler limit now isIP hashKeyHex sha256hex cacheDir cacheTtl
      ownerP repoP headers (some dev) upstream encodeReleases rl fs =
    ⟨429, [⟨now, dev.device_id, "list_releases", owner ++ "/" ++ repo, false,
       some "rate_limited", false⟩],
     (rlConsume limit now rl dev.device_id).2, fs,
     some (limit,
       getRemainingRequests limit now ((rlConsume limit now rl dev.device_id).2
           dev.device_id),
       getResetTime now ((rlConsume limit now rl dev.device_id).2
           dev.device_id)),
     none, none⟩ := by
  simp [releasesHandler, ho, hr, hal]

/-- Helper: authenticated request served from the cache. -/
theorem releasesHandler_authed_hit (limit now : Nat) (isIP : String → Bool)
    (hashKeyHex : String → String) (sha256hex : List Nat → String)
    (cacheDir : String) (cacheTtl : Nat) (ownerP repoP : String)
    (headers : String → Option String) (upstream : List Release)
    (encodeReleases : List Release → List Nat) (rl : RL) (fs : FS)
    (dev : DeviceContext) (cached : List Nat)
    (owner repo : String)
    (ho : validateOwnerRepo ownerP = some owner)
    (hr : validateOwnerRepo repoP = some repo)
    (hal : (rlConsume limit now rl dev.device_id).1.allowed = true)
    (hcache : CacheManager.get hashKeyHex cacheDir now fs
      ("releases:" ++ owner ++ ":" ++ repo) = some cached) :
    releasesHandler limit now isIP hashKeyHex sha256hex cacheDir cacheTtl
      ownerP repoP headers (some dev) upstream encodeReleases rl fs =
    ⟨200, [⟨now, dev.device_id, "list_releases", owner ++ "/" ++ repo, true,
       none, true⟩],
     (rlConsume limit now rl dev.device_id).2, fs,
     some (limit,
       getRemainingRequests limit now ((rlConsume limit now rl dev.device_id).2
           dev.device_id),
       getResetTime now ((rlConsume limit now rl dev.device_id).2
           dev.device_id)),
     none, none⟩ := by
  simp [releasesHandler, ho, hr, hal, hcache]

/-- Helper: authenticated request, cache miss, empty upstream list. -/
theorem releasesHandler_authed_404 (limit now : Nat) (isIP : String → Bool)
    (hashKeyHex : String → String) (sha256hex : List Nat → String)
    (cacheDir : String) (cacheTtl : Nat) (ownerP repoP : String)
    (headers : String → Option String) (upstream : List Release)
    (encodeReleases : List Release → List Nat) (rl : RL) (fs : FS)
    (dev : DeviceContext)
    (owner repo : String)
    (ho : validateOwnerRepo ownerP = some owner)
    (hr : validateOwnerRepo repoP = some repo)
    (hal : (rlConsume limit now rl dev.device_id).1.allowed = true)
    (hcache : CacheManager.get hashKeyHex cacheDir now fs
      ("releases:" ++ owner ++ ":" ++ repo) = none)
    (hup : upstream.length = 0) :
    releasesHandler limit now isIP hashKeyHex sha256hex cacheDir cacheTtl
      ownerP repoP headers (some dev) upstream encodeReleases rl fs =
    ⟨404, [⟨now, dev.device_id, "list_releases", owner ++ "/" ++ repo, false,
       some "not_found", false⟩],
     (rlConsume limit now rl dev.device_id).2, fs,
     some (limit,
       getRemainingRequests limit now ((rlConsume limit now rl dev.device_id).2
           dev.device_id),
       getResetTime now ((rlConsume limit now rl dev.device_id).2
           dev.device_id)),
     none, none⟩ := by
  simp [releasesHandler, ho, hr, hal, hcache, hup]

/-- Helper: authenticated request, cache miss, fresh upstream success. -/
theorem releasesHandler_authed_200 (limit now : Nat) (isIP : String → Bool)
    (hashKeyHex : String → String) (sha256hex : List Nat → String)
    (cacheDir : String) (cacheTtl : Nat) (ownerP repoP : String)
    (headers : String → Option String) (upstream : List Release)
    (encodeReleases : List Release → List Nat) (rl : RL) (fs : FS)
    (dev : DeviceContext)
    (owner repo : String)
    (ho : validateOwnerRepo ownerP = some owner)
    (hr : validateOwnerRepo repoP = some repo)
    (hal : (rlConsume limit now rl dev.device_id).1.allowed = true)
    (hcache : CacheManager.get hashKeyHex cacheDir now fs
      ("releases:" ++ owner ++ ":" ++ repo) = none)
    (hup : ¬ upstream.length = 0) :
    releasesHandler limit now isIP hashKeyHex sha256hex cacheDir cacheTtl
      ownerP repoP headers (some dev) upstream encodeReleases rl fs =
    ⟨200, [⟨now, dev.device_id, "list_releases", owner ++ "/" ++ repo, true,
       none, false⟩],
     (rlConsume limit now rl dev.device_id).2,
     CacheManager.set hashKeyHex sha256hex cacheDir cacheTtl now fs
       ("releases:" ++ owner ++ ":" ++ repo) (encodeReleases upstream),
     some (limit,
       getRemainingRequests limit now ((rlConsume limit now rl dev.device_id).2
           dev.device_id),
       getResetTime now ((rlConsume limit now rl dev.device_id).2
           dev.device_id)),
     none, none⟩ := by
  simp [releasesHandler, ho, hr, hal, hcache, hup]

/-- Helper: a failed path-parameter validation on the asset route is
status 400 with no audit record. -/
theorem releaseHandler_invalid (limit now : Nat) (isIP : String → Bool)
    (hashKeyHex : String → String) (sha256hex : List Nat → String)
    (cacheDir : String) (cacheTtl : Nat) (ownerP repoP versionP assetP : String)
    (headers : String → Option String) (getReleaseRes : Option Release)
    (download : Nat → Option (List Nat)) (signer : Option (List Nat → String))
    (rl : RL) (fs : FS)
    (device : Option DeviceContext)
    (h : validateOwnerRepo ownerP = none ∨ validateOwnerRepo repoP = none ∨
      validateVersion versionP = none ∨ validateAssetName assetP = none) :
    releaseHandler limit now isIP hashKeyHex sha256hex cacheDir cacheTtl
      ownerP repoP versionP assetP headers device getReleaseRes download
      signer rl fs =
    ⟨400, [], rl, fs, none, none, none⟩ := by
  rcases h with h | h | h | h
  · simp [releaseHandler, h]
  · rcases hA : validateOwnerRepo ownerP with _ | o <;>
      simp [releaseHandler, hA, h]
  · rcases hA : validateOwnerRepo ownerP with _ | o <;>
      rcases hB : validateOwnerRepo repoP with _ | r <;>
      simp [releaseHandler, hA, hB, h]
  · rcases hA : validateOwnerRepo ownerP with _ | o <;>
      rcases hB : validateOwnerRepo repoP with _ | r <;>
      rcases hC : validateVersion versionP with _ | v <;>
      simp [releaseHandler, hA, hB, hC, h]

/-- Helper: unauthenticated asset request, anonymous key admitted. -/
theorem releaseHandler_anon_allowed (limit now : Nat) (isIP : String → Bool)
    (hashKeyHex : String → String) (sha256hex : List Nat → String)
    (cacheDir : String) (cacheTtl : Nat) (ownerP repoP versionP assetP : String)
    (headers : String → Option String) (getReleaseRes : Option Release)
    (download : Nat → Option (List Nat)) (signer : Option (List Nat → String))
    (rl : RL) (fs : FS)
    (owner repo version assetName : String)
    (ho : validateOwnerRepo ownerP = some owner)
    (hr : validateOwnerRepo repoP = some repo)
    (hv : validateVersion versionP = some version)
    (ha : validateAssetName assetP = some assetName)
    (hal : (rlConsume limit now rl ("anon:" ++ parseForwardedFor isIP (headers "x-forwarded-for"))).1.allowed = true) :
    releaseHandler limit now isIP hashKeyHex sha256hex cacheDir cacheTtl
      ownerP repoP versionP assetP headers none getReleaseRes download
      signer rl fs =
    ⟨401, [⟨now, "unknown", "download_asset",
       (owner ++ "/" ++ repo ++ "/" ++ version ++ "/" ++ assetName), false, none, false⟩],
     (rlConsume limit now rl ("anon:" ++ parseForwardedFor isIP (headers "x-forwarded-for"))).2, fs,
     some (limit,
       getRemainingRequests limit now ((rlConsume limit now rl ("anon:" ++ parseForwardedFor isIP (headers "x-forwarded-for"))).2
           ("anon:" ++ parseForwardedFor isIP (headers "x-forwarded-for"))),
       getResetTime now ((rlConsume limit now rl ("anon:" ++ parseForwardedFor isIP (headers "x-forwarded-for"))).2
           ("anon:" ++ parseForwardedFor isIP (headers "x-forwarded-for")))),
     none, none⟩ := by
  simp [releaseHandler, ho, hr, hv, ha, hal]

/-- Helper: unauthenticated asset request, anonymous key over limit. -/
theorem releaseHandler_anon_denied (limit now : Nat) (isIP : String → Bool)
    (hashKeyHex : String → String) (sha256hex : List Nat → String)
    (cacheDir : String) (cacheTtl : Nat) (ownerP repoP versionP assetP : String)
    (headers : String → Option String) (getReleaseRes : Option Release)
    (download : Nat → Option (List Nat)) (signer : Option (List Nat → String))
    (rl : RL) (fs : FS)
    (owner repo version assetName : String)
    (ho : validateOwnerRepo ownerP = some owner)
    (hr : validateOwnerRepo repoP = some repo)
    (hv : validateVersion versionP = some version)
    (ha : validateAssetName assetP = some assetName)
    (hal : (rlConsume limit now rl ("anon:" ++ parseForwardedFor isIP (headers "x-forwarded-for"))).1.allowed = false) :
    releaseHandler limit now isIP hashKeyHex sha256hex cacheDir cacheTtl
      ownerP repoP versionP assetP headers none getReleaseRes download
      signer rl fs =
    ⟨429, [], (rlConsume limit now rl ("anon:" ++ parseForwardedFor isIP (headers "x-forwarded-for"))).2, fs,
     some (limit,
       getRemainingRequests limit now ((rlConsume limit now rl ("anon:" ++ parseForwardedFor isIP (headers "x-forwarded-for"))).2
           ("anon:" ++ parseForwardedFor isIP (headers "x-forwarded-for"))),
       getResetTime now ((rlConsume limit now rl ("anon:" ++ parseForwardedFor isIP (headers "x-forwarded-for"))).2
           ("anon:" ++ parseForwardedFor isIP (headers "x-forwarded-for")))),
     none, none⟩ := by
  simp [releaseHandler, ho, hr, hv, ha, hal]

/-- Helper: authenticated asset request denied by the limiter. -/
theorem releaseHandler_authed_denied (limit now : Nat) (isIP : String → Bool)
    (hashKeyHex : String → String) (sha256hex : List Nat → String)
    (cacheDir : String) (cacheTtl : Nat) (ownerP repoP versionP assetP : String)
    (headers : String → Option String) (getReleaseRes : Option Release)
    (download : Nat → Option (List Nat)) (signer : Option (List Nat → String))
    (rl : RL) (fs : FS)
    (dev : DeviceContext)
    (owner repo version assetName : String)
    (ho : validateOwnerRepo ownerP = some owner)
    (hr : validateOwnerRepo repoP = some repo)
    (hv : validateVersion versionP = some version)
    (ha : validateAssetName assetP = some assetName)
    (hal : (rlConsume limit now rl dev.device_id).1.allowed = false) :
    releaseHandler limit now isIP hashKeyHex sha256hex cacheDir cacheTtl
      ownerP repoP versionP assetP headers (some dev) getReleaseRes download
      signer rl fs =
    ⟨429, [⟨now, dev.device_id, "download_asset",
       (owner ++ "/" ++ repo ++ "/" ++ version ++ "/" ++ assetName), false, some "rate_limited", false⟩],
     (rlConsume limit now rl dev.device_id).2, fs,
     some (limit,
       getRemainingRequests limit now ((rlConsume limit now rl dev.device_id).2
           dev.device_id),
       getResetTime now ((rlConsume limit now rl dev.device_id).2
           dev.device_id)),
     none, none⟩ := by
  simp [releaseHandler, ho, hr, hv, ha, hal]

/-- Helper: authenticated asset request served from the cache with the
stored checksum header and optional signature. -/
theorem releaseHandler_authed_hit (limit now : Nat) (isIP : String → Bool)
    (hashKeyHex : String → String) (sha256hex : List Nat → String)
    (cacheDir : String) (cacheTtl : Nat) (ownerP repoP versionP assetP : String)
    (headers : String → Option String) (getReleaseRes : Option Release)
    (download : Nat → Option (List Nat)) (signer : Option (List Nat → String))
    (rl : RL) (fs : FS)
    (dev : DeviceContext) (cached : List Nat)
    (owner repo version assetName : String)
    (ho : validateOwnerRepo ownerP = some owner)
    (hr : validateOwnerRepo repoP = some repo)
    (hv : validateVersion versionP = some version)
    (ha : validateAssetName assetP = some assetName)
    (hal : (rlConsume limit now rl dev.device_id).1.allowed = true)
    (hcache : CacheManager.get hashKeyHex cacheDir now fs
      ("asset:" ++ owner ++ ":" ++ repo ++ ":" ++ version ++ ":" ++ assetName) = some cached) :
    releaseHandler limit now isIP hashKeyHex sha256hex cacheDir cacheTtl
      ownerP repoP versionP assetP headers (some dev) getReleaseRes download
      signer rl fs =
    ⟨200, [⟨now, dev.device_id, "download_asset",
       (owner ++ "/" ++ repo ++ "/" ++ version ++ "/" ++ assetName), true, none, true⟩],
     (rlConsume limit now rl dev.device_id).2, fs,
     some (limit,
       getRemainingRequests limit now ((rlConsume limit now rl dev.device_id).2
           dev.device_id),
       getResetTime now ((rlConsume limit now rl dev.device_id).2
           dev.device_id)),
     some ((CacheManager.getChecksum hashKeyHex cacheDir now fs
       ("asset:" ++ owner ++ ":" ++ repo ++ ":" ++ version ++ ":" ++ assetName)).getD ""),
     signer.map (fun s => s cached)⟩ := by
  simp [releaseHandler, ho, hr, hv, ha, hal, hcache]

/-- Helper: authenticated asset request, cache miss, release not found. -/
theorem releaseHandler_authed_rel404 (limit now : Nat) (isIP : String → Bool)
    (hashKeyHex : String → String) (sha256hex : List Nat → String)
    (cacheDir : String) (cacheTtl : Nat) (ownerP repoP versionP assetP : String)
    (headers : String → Option String) (getReleaseRes : Option Release)
    (download : Nat → Option (List Nat)) (signer : Option (List Nat → String))
    (rl : RL) (fs : FS)
    (dev : DeviceContext)
    (owner repo version assetName : String)
    (ho : validateOwnerRepo ownerP = some owner)
    (hr : validateOwnerRepo repoP = some repo)
    (hv : validateVersion versionP = some version)
    (ha : validateAssetName assetP = some assetName)
    (hal : (rlConsume limit now rl dev.device_id).1.allowed = true)
    (hcache : CacheManager.get hashKeyHex cacheDir now fs
      ("asset:" ++ owner ++ ":" ++ repo ++ ":" ++ version ++ ":" ++ assetName) = none)
    (hrel : getReleaseRes = none) :
    releaseHandler limit now isIP hashKeyHex sha256hex cacheDir cacheTtl
      ownerP repoP versionP assetP headers (some dev) getReleaseRes download
      signer rl fs =
    ⟨404, [⟨now, dev.device_id, "download_asset",
       (owner ++ "/" ++ repo ++ "/" ++ version ++ "/" ++ assetName), false, some "release_not_found", false⟩],
     (rlConsume limit now rl dev.device_id).2, fs,
     some (limit,
       getRemainingRequests limit now ((rlConsume limit now rl dev.device_id).2
           dev.device_id),
       getResetTime now ((rlConsume limit now rl dev.device_id).2
           dev.device_id)),
     none, none⟩ := by
  simp [releaseHandler, ho, hr, hv, ha, hal, hcache, hrel]

/-- Helper: authenticated asset request, cache miss, release found but the
asset name is absent. -/
theorem releaseHandler_authed_asset404 (limit now : Nat) (isIP : String → Bool)
    (hashKeyHex : String → String) (sha256hex : List Nat → String)
    (cacheDir : String) (cacheTtl : Nat) (ownerP repoP versionP assetP : String)
    (headers : String → Option String) (getReleaseRes : Option Release)
    (download : Nat → Option (List Nat)) (signer : Option (List Nat → String))
    (rl : RL) (fs : FS)
    (dev : DeviceContext) (release : Release)
    (owner repo version assetName : String)
    (ho : validateOwnerRepo ownerP = some owner)
    (hr : validateOwnerRepo repoP = some repo)
    (hv : validateVersion versionP = some version)
    (ha : validateAssetName assetP = some assetName)
    (hal : (rlConsume limit now rl dev.device_id).1.allowed = true)
    (hcache : CacheManager.get hashKeyHex cacheDir now fs
      ("asset:" ++ owner ++ ":" ++ repo ++ ":" ++ version ++ ":" ++ assetName) = none)
    (hrel : getReleaseRes = some release)
    (hfind : release.assets.find? (fun a => a.name == assetName) = none) :
    releaseHandler limit now isIP hashKeyHex sha256hex cacheDir cacheTtl
      ownerP repoP versionP assetP headers (some dev) getReleaseRes download
      signer rl fs =
    ⟨404, [⟨now, dev.device_id, "download_asset",
       (owner ++ "/" ++ repo ++ "/" ++ version ++ "/" ++ assetName), false, some "asset_not_found", false⟩],
     (rlConsume limit now rl dev.device_id).2, fs,
     some (limit,
       getRemainingRequests limit now ((rlConsume limit now rl dev.device_id).2
           dev.device_id),
       getResetTime now ((rlConsume limit now rl dev.device_id).2
           dev.device_id)),
     none, none⟩ := by
  simp [releaseHandler, ho, hr, hv, ha, hal, hcache, hrel, hfind]

/-- Helper: authenticated asset request, cache miss, asset found but the
download fails upstream — `ExternalServiceError`, status 502. -/
theorem releaseHandler_authed_502 (limit now : Nat) (isIP : String → Bool)
    (hashKeyHex : String → String) (sha256hex : List Nat → String)
    (cacheDir : String) (cacheTtl : Nat) (ownerP repoP versionP assetP : String)
    (headers : String → Option String) (getReleaseRes : Option Release)
    (download : Nat → Option (List Nat)) (signer : Option (List Nat → String))
    (rl : RL) (fs : FS)
    (dev : DeviceContext) (release : Release) (asset : ReleaseAsset)
    (owner repo version assetName : String)
    (ho : validateOwnerRepo ownerP = some owner)
    (hr : validateOwnerRepo repoP = some repo)
    (hv : validateVersion versionP = some version)
    (ha : validateAssetName assetP = some assetName)
    (hal : (rlConsume limit now rl dev.device_id).1.allowed = true)
    (hcache : CacheManager.get hashKeyHex cacheDir now fs
      ("asset:" ++ owner ++ ":" ++ repo ++ ":" ++ version ++ ":" ++ assetName) = none)
    (hrel : getReleaseRes = some release)
    (hfind : release.assets.find? (fun a => a.name == assetName) = some asset)
    (hdl : download asset.id = none) :
    releaseHandler limit now isIP hashKeyHex sha256hex cacheDir cacheTtl
      ownerP repoP versionP assetP headers (some dev) getReleaseRes download
      signer rl fs =
    ⟨502, [⟨now, dev.device_id, "download_asset",
       (owner ++ "/" ++ repo ++ "/" ++ version ++ "/" ++ assetName), false, some "download_failed", false⟩],
     (rlConsume limit now rl dev.device_id).2, fs,
     some (limit,
       getRemainingRequests limit now ((rlConsume limit now rl dev.device_id).2
           dev.device_id),
       getResetTime now ((rlConsume limit now rl dev.device_id).2
           dev.device_id)),
     none, none⟩ := by
  simp [releaseHandler, ho, hr, hv, ha, hal, hcache, hrel, hfind, hdl]

/-- Helper: authenticated asset request, cache miss, fresh download
success: cache write, checksum and optional signature headers. -/
theorem releaseHandler_authed_200 (limit now : Nat) (isIP : String → Bool)
    (hashKeyHex : String → String) (sha256hex : List Nat → String)
    (cacheDir : String) (cacheTtl : Nat) (ownerP repoP versionP assetP : String)
    (headers : String → Option String) (getReleaseRes : Option Release)
    (download : Nat → Option (List Nat)) (signer : Option (List Nat → String))
    (rl : RL) (fs : FS)
    (dev : DeviceContext) (release : Release) (asset : ReleaseAsset)
    (data : List Nat)
    (owner repo version assetName : String)
    (ho : validateOwnerRepo ownerP = some owner)
    (hr : validateOwnerRepo repoP = some repo)
    (hv : validateVersion versionP = some version)
    (ha : validateAssetName assetP = some assetName)
    (hal : (rlConsume limit now rl dev.device_id).1.allowed = true)
    (hcache : CacheManager.get hashKeyHex cacheDir now fs
      ("asset:" ++ owner ++ ":" ++ repo ++ ":" ++ version ++ ":" ++ assetName) = none)
    (hrel : getReleaseRes = some release)
    (hfind : release.assets.find? (fun a => a.name == assetName) = some asset)
    (hdl : download asset.id = some data) :
    releaseHandler limit now isIP hashKeyHex sha256hex cacheDir cacheTtl
      ownerP repoP versionP assetP headers (some dev) getReleaseRes download
      signer rl fs =
    ⟨200, [⟨now, dev.device_id, "download_asset",
       (owner ++ "/" ++ repo ++ "/" ++ version ++ "/" ++ assetName), true, none, false⟩],
     (rlConsume limit now rl dev.device_id).2,
     CacheManager.set hashKeyHex sha256hex cacheDir cacheTtl now fs
       ("asset:" ++ owner ++ ":" ++ repo ++ ":" ++ version ++ ":" ++ assetName) data,
     some (limit,
       getRemainingRequests limit now ((rlConsume limit now rl dev.device_id).2
           dev.device_id),
       getResetTime now ((rlConsume limit now rl dev.device_id).2
           dev.device_id)),
     some (sha256hex data),
     signer.map (fun s => s data)⟩ := by
  simp [releaseHandler, ho, hr, hv, ha, hal, hcache, hrel, hfind, hdl]

/-! ## Audit and precedence theorems for the routes -/

/-- C1 counterexample: a request with an invalid owner parameter reaches
the terminal validation-failure outcome (status 400) on the releases route
with zero audit records emitted, contradicting the claim that every
terminal outcome, validation failures included, is audited exactly once.
The anonymous rate-limited outcome likewise emits none (see the amended
theorem). -/
theorem claim_C1_counterexample :
    (releasesHandler 60 0 (fun _ => false) (fun _ => "") (fun _ => "")
      "/cache" 3600 "bad owner!" "repo1" (fun _ => none) none []
      (fun _ => []) (fun _ => none) (fun _ => none)).status = 400 ∧
    (releasesHandler 60 0 (fun _ => false) (fun _ => "") (fun _ => "")
      "/cache" 3600 "bad owner!" "repo1" (fun _ => none) none []
      (fun _ => []) (fun _ => none) (fun _ => none)).audits = [] := by
  constructor
  · rfl
  · rfl

/-- C1 (amended): on both release routes, every terminal outcome except a
validation failure (400) and an anonymous rate-limit denial (429 with no
authenticated device) emits exactly one audit record, carrying the device
identity (or `unknown` when unauthenticated), the action name, the logical
resource path, and a success/failure status (success exactly for 200) with
an optional reason code; validation failures and anonymous rate-limit
denials emit no audit record at all. -/
theorem claim_C1_audit_exactly_once (limit now : Nat) (isIP : String → Bool)
    (hashKeyHex : String → String) (sha256hex : List Nat → String)
    (cacheDir : String) (cacheTtl : Nat)
    (ownerP repoP versionP assetP : String)
    (headers : String → Option String) (device : Option DeviceContext)
    (upstream : List Release) (encodeReleases : List Release → List Nat)
    (getReleaseRes : Option Release) (download : Nat → Option (List Nat))
    (signer : Option (List Nat → String)) (rl : RL) (fs : FS) :
    ((validateOwnerRepo ownerP = none ∨ validateOwnerRepo repoP = none) →
      (releasesHandler limit now isIP hashKeyHex sha256hex cacheDir cacheTtl
          ownerP repoP headers device upstream encodeReleases rl fs).status = 400 ∧
      (releasesHandler limit now isIP hashKeyHex sha256hex cacheDir cacheTtl
          ownerP repoP headers device upstream encodeReleases rl fs).audits = []) ∧
    (∀ owner repo, validateOwnerRepo ownerP = some owner →
      validateOwnerRepo repoP = some repo →
      (device = none ∧ (releasesHandler limit now isIP hashKeyHex sha256hex cacheDir cacheTtl
          ownerP repoP headers device upstream encodeReleases rl fs).status = 429 →
        (releasesHandler limit now isIP hashKeyHex sha256hex cacheDir cacheTtl
          ownerP repoP headers device upstream encodeReleases rl fs).audits = []) ∧
      (¬(device = none ∧ (releasesHandler limit now isIP hashKeyHex sha256hex cacheDir cacheTtl
          ownerP repoP headers device upstream encodeReleases rl fs).status = 429) →
        auditOnce device "list_releases" (owner ++ "/" ++ repo)
          (releasesHandler limit now isIP hashKeyHex sha256hex cacheDir cacheTtl
          ownerP repoP headers device upstream encodeReleases rl fs))) ∧
    ((validateOwnerRepo ownerP = none ∨ validateOwnerRepo repoP = none ∨
      validateVersion versionP = none ∨ validateAssetName assetP = none) →
      (releaseHandler limit now isIP hashKeyHex sha256hex cacheDir cacheTtl
          ownerP repoP versionP assetP headers device getReleaseRes download
          signer rl fs).status = 400 ∧
      (releaseHandler limit now isIP hashKeyHex sha256hex cacheDir cacheTtl
          ownerP repoP versionP assetP headers device getReleaseRes download
          signer rl fs).audits = []) ∧
    (∀ owner repo version assetName, validateOwnerRepo ownerP = some owner →
      validateOwnerRepo repoP = some repo →
      validateVersion versionP = some version →
      validateAssetName assetP = some assetName →
      (device = none ∧ (releaseHandler limit now isIP hashKeyHex sha256hex cacheDir cacheTtl
          ownerP repoP versionP assetP headers device getReleaseRes download
          signer rl fs).status = 429 →
        (releaseHandler limit now isIP hashKeyHex sha256hex cacheDir cacheTtl
          ownerP repoP versionP assetP headers device getReleaseRes download
          signer rl fs).audits = []) ∧
      (¬(device = none ∧ (releaseHandler limit now isIP hashKeyHex sha256hex cacheDir cacheTtl
          ownerP repoP versionP assetP headers device getReleaseRes download
          signer rl fs).status = 429) →
        auditOnce device "download_asset"
          (owner ++ "/" ++ repo ++ "/" ++ version ++ "/" ++ assetName)
          (releaseHandler limit now isIP hashKeyHex sha256hex cacheDir cacheTtl
          ownerP repoP versionP assetP headers device getReleaseRes download
          signer rl fs))) := by
  refine ⟨?_, ?_, ?_, ?_⟩
  · intro h
    rw [releasesHandler_invalid limit now isIP hashKeyHex sha256hex cacheDir
      cacheTtl ownerP repoP headers upstream encodeReleases rl fs device h]
    exact ⟨rfl, rfl⟩
  · intro owner repo ho hr
    cases device with
    | none =>
      rcases hal : (rlConsume limit now rl
          ("anon:" ++ parseForwardedFor isIP
            (headers "x-forwarded-for"))).1.allowed with _ | _
      · rw [releasesHandler_anon_denied limit now isIP hashKeyHex sha256hex
          cacheDir cacheTtl ownerP repoP headers upstream encodeReleases rl
          fs owner repo ho hr hal]
        exact ⟨fun _ => rfl, fun hn => absurd ⟨rfl, rfl⟩ hn⟩
      · rw [releasesHandler_anon_allowed limit now isIP hashKeyHex sha256hex
          cacheDir cacheTtl ownerP repoP headers upstream encodeReleases rl
          fs owner repo ho hr hal]
        refine ⟨fun h2 => absurd h2.2 (by simp), fun _ => ?_⟩
        exact ⟨⟨now, "unknown", "list_releases", owner ++ "/" ++ repo, false,
          none, false⟩, rfl, rfl, rfl, rfl, by simp⟩
    | some dev =>
      rcases hal : (rlConsume limit now rl dev.device_id).1.allowed with _ | _
      · rw [releasesHandler_authed_denied limit now isIP hashKeyHex sha256hex
          cacheDir cacheTtl ownerP repoP headers upstream encodeReleases rl
          fs dev owner repo ho hr hal]
        refine ⟨fun h2 => absurd h2.1 (by simp), fun _ => ?_⟩
        exact ⟨⟨now, dev.device_id, "list_releases", owner ++ "/" ++ repo,
          false, some "rate_limited", false⟩, rfl, rfl, rfl, rfl, by simp⟩
      · rcases hcache : CacheManager.get hashKeyHex cacheDir now fs
            ("releases:" ++ owner ++ ":" ++ repo) with _ | cached
        · by_cases hup : upstream.length = 0
          · rw [releasesHandler_authed_404 limit now isIP hashKeyHex
              sha256hex cacheDir cacheTtl ownerP repoP headers upstream
              encodeReleases rl fs dev owner repo ho hr hal hcache hup]
            refine ⟨fun h2 => absurd h2.1 (by simp), fun _ => ?_⟩
            exact ⟨⟨now, dev.device_id, "list_releases",
              owner ++ "/" ++ repo, false, some "not_found", false⟩,
              rfl, rfl, rfl, rfl, by simp⟩
          · rw [releasesHandler_authed_200 limit now isIP hashKeyHex
              sha256hex cacheDir cacheTtl ownerP repoP headers upstream
              encodeReleases rl fs dev owner repo ho hr hal hcache hup]
            refine ⟨fun h2 => absurd h2.1 (by simp), fun _ => ?_⟩
            exact ⟨⟨now, dev.device_id, "list_releases",
              owner ++ "/" ++ repo, true, none, false⟩,
              rfl, rfl, rfl, rfl, by simp⟩
        · rw [releasesHandler_authed_hit limit now isIP hashKeyHex sha256hex
            cacheDir cacheTtl ownerP repoP headers upstream encodeReleases
            rl fs dev cached owner repo ho hr hal hcache]
          refine ⟨fun h2 => absurd h2.1 (by simp), fun _ => ?_⟩
          exact ⟨⟨now, dev.device_id, "list_releases", owner ++ "/" ++ repo,
            true, none, true⟩, rfl, rfl, rfl, rfl, by simp⟩
  · intro h
    rw [releaseHandler_invalid limit now isIP hashKeyHex sha256hex cacheDir
      cacheTtl ownerP repoP versionP assetP headers getReleaseRes download
      signer rl fs device h]
    exact ⟨rfl, rfl⟩
  · intro owner repo version assetName ho hr hv ha
    cases device with
    | none =>
      rcases hal : (rlConsume limit now rl
          ("anon:" ++ parseForwardedFor isIP
            (headers "x-forwarded-for"))).1.allowed with _ | _
      · rw [releaseHandler_anon_denied limit now isIP hashKeyHex sha256hex
          cacheDir cacheTtl ownerP repoP versionP assetP headers
          getReleaseRes download signer rl fs owner repo version assetName
          ho hr hv ha hal]
        exact ⟨fun _ => rfl, fun hn => absurd ⟨rfl, rfl⟩ hn⟩
      · rw [releaseHandler_anon_allowed limit now isIP hashKeyHex sha256hex
          cacheDir cacheTtl ownerP repoP versionP assetP headers
          getReleaseRes download signer rl fs owner repo version assetName
          ho hr hv ha hal]
        refine ⟨fun h2 => absurd h2.2 (by simp), fun _ => ?_⟩
        exact ⟨⟨now, "unknown", "download_asset",
          owner ++ "/" ++ repo ++ "/" ++ version ++ "/" ++ assetName, false,
          none, false⟩, rfl, rfl, rfl, rfl, by simp⟩
    | some dev =>
      rcases hal : (rlConsume limit now rl dev.device_id).1.allowed with _ | _
      · rw [releaseHandler_authed_denied limit now isIP hashKeyHex sha256hex
          cacheDir cacheTtl ownerP repoP versionP assetP headers
          getReleaseRes download signer rl fs dev owner repo version
          assetName ho hr hv ha hal]
        refine ⟨fun h2 => absurd h2.1 (by simp), fun _ => ?_⟩
        exact ⟨⟨now, dev.device_id, "download_asset",
          owner ++ "/" ++ repo ++ "/" ++ version ++ "/" ++ assetName, false,
          some "rate_limited", false⟩, rfl, rfl, rfl, rfl, by simp⟩
      · rcases hcache : CacheManager.get hashKeyHex cacheDir now fs
            ("asset:" ++ owner ++ ":" ++ repo ++ ":" ++ version ++ ":" ++
              assetName) with _ | cached
        · rcases hrel : getReleaseRes with _ | release
          · rw [releaseHandler_authed_rel404 limit now isIP hashKeyHex
              sha256hex cacheDir cacheTtl ownerP repoP versionP assetP
              headers none download signer rl fs dev owner repo
              version assetName ho hr hv ha hal hcache rfl]
            refine ⟨fun h2 => absurd h2.1 (by simp), fun _ => ?_⟩
            exact ⟨⟨now, dev.device_id, "download_asset",
              owner ++ "/" ++ repo ++ "/" ++ version ++ "/" ++ assetName,
              false, some "release_not_found", false⟩,
              rfl, rfl, rfl, rfl, by simp⟩
          · rcases hfind : release.assets.find? (fun a => a.name == assetName)
                with _ | asset
            · rw [releaseHandler_authed_asset404 limit now isIP hashKeyHex
                sha256hex cacheDir cacheTtl ownerP repoP versionP assetP
                headers (some release) download signer rl fs dev release
                owner repo version assetName ho hr hv ha hal hcache rfl
                hfind]
              refine ⟨fun h2 => absurd h2.1 (by simp), fun _ => ?_⟩
              exact ⟨⟨now, dev.device_id, "download_asset",
                owner ++ "/" ++ repo ++ "/" ++ version ++ "/" ++ assetName,
                false, some "asset_not_found", false⟩,
                rfl, rfl, rfl, rfl, by simp⟩
            · rcases hdl : download asset.id with _ | data
              · rw [releaseHandler_authed_502 limit now isIP hashKeyHex
                  sha256hex cacheDir cacheTtl ownerP repoP versionP assetP
                  headers (some release) download signer rl fs dev release
                  asset owner repo version assetName ho hr hv ha hal hcache
                  rfl hfind hdl]
                refine ⟨fun h2 => absurd h2.1 (by simp), fun _ => ?_⟩
                exact ⟨⟨now, dev.device_id, "download_asset",
                  owner ++ "/" ++ repo ++ "/" ++ version ++ "/" ++ assetName,
                  false, some "download_failed", false⟩,
                  rfl, rfl, rfl, rfl, by simp⟩
              · rw [releaseHandler_authed_200 limit now isIP hashKeyHex
                  sha256hex cacheDir cacheTtl ownerP repoP versionP assetP
                  headers (some release) download signer rl fs dev release
                  asset data owner repo version assetName ho hr hv ha hal
                  hcache rfl hfind hdl]
                refine ⟨fun h2 => absurd h2.1 (by simp), fun _ => ?_⟩
                exact ⟨⟨now, dev.device_id, "download_asset",
                  owner ++ "/" ++ repo ++ "/" ++ version ++ "/" ++ assetName,
                  true, none, false⟩, rfl, rfl, rfl, rfl, by simp⟩
        · rw [releaseHandler_authed_hit limit now isIP hashKeyHex sha256hex
            cacheDir cacheTtl ownerP repoP versionP assetP headers
            getReleaseRes download signer rl fs dev cached owner repo
            version assetName ho hr hv ha hal hcache]
          refine ⟨fun h2 => absurd h2.1 (by simp), fun _ => ?_⟩
          exact ⟨⟨now, dev.device_id, "download_asset",
            owner ++ "/" ++ repo ++ "/" ++ version ++ "/" ++ assetName,
            true, none, true⟩, rfl, rfl, rfl, rfl, by simp⟩

/-- C1 witness: an unauthenticated, within-limit request to the releases
route reaches the 401 outcome with exactly one audit record for the
`unknown` identity. -/
theorem claim_C1_witness :
    auditOnce none "list_releases" ("acme" ++ "/" ++ "tool")
      (releasesHandler 60 0 (fun _ => false) (fun _ => "h") (fun _ => "c")
        "/cache" 3600 "acme" "tool" (fun _ => none) none []
        (fun _ => []) (fun _ => none) (fun _ => none)) :=
  ((claim_C1_audit_exactly_once 60 0 (fun _ => false) (fun _ => "h")
    (fun _ => "c") "/cache" 3600 "acme" "tool" "v1.0.0" "a.tar"
    (fun _ => none) none [] (fun _ => []) none (fun _ => none) none
    (fun _ => none) (fun _ => none)).2.1 "acme" "tool" (by decide)
    (by decide)).2 (by decide)

/-- C4: when the dispatcher yields no identity (a configured method failed
to authenticate the request), both routes consume the anonymous rate-limit
key `anon:<ip>` derived from the forwarded-for header, and respond 401
unless that anonymous key is denied by the limiter, in which case they
respond 429 — the rate-limit response takes precedence over the
unauthorized response. -/
theorem claim_C4_rate_limit_precedence (limit now : Nat)
    (isIP : String → Bool) (hashKeyHex : String → String)
    (sha256hex : List Nat → String) (cacheDir : String) (cacheTtl : Nat)
    (ownerP repoP versionP assetP : String)
    (headers : String → Option String) (upstream : List Release)
    (encodeReleases : List Release → List Nat)
    (getReleaseRes : Option Release) (download : Nat → Option (List Nat))
    (signer : Option (List Nat → String)) (rl : RL) (fs : FS) :
    (∀ owner repo, validateOwnerRepo ownerP = some owner →
      validateOwnerRepo repoP = some repo →
      (releasesHandler limit now isIP hashKeyHex sha256hex cacheDir cacheTtl
        ownerP repoP headers none upstream encodeReleases rl fs).rl =
        (rlConsume limit now rl ("anon:" ++ parseForwardedFor isIP
          (headers "x-forwarded-for"))).2 ∧
      (releasesHandler limit now isIP hashKeyHex sha256hex cacheDir cacheTtl
        ownerP repoP headers none upstream encodeReleases rl fs).status =
        (if (rlConsume limit now rl ("anon:" ++ parseForwardedFor isIP
          (headers "x-forwarded-for"))).1.allowed = true then 401
         else 429)) ∧
    (∀ owner repo version assetName, validateOwnerRepo ownerP = some owner →
      validateOwnerRepo repoP = some repo →
      validateVersion versionP = some version →
      validateAssetName assetP = some assetName →
      (releaseHandler limit now isIP hashKeyHex sha256hex cacheDir cacheTtl
        ownerP repoP versionP assetP headers none getReleaseRes download
        signer rl fs).rl =
        (rlConsume limit now rl ("anon:" ++ parseForwardedFor isIP
          (headers "x-forwarded-for"))).2 ∧
      (releaseHandler limit now isIP hashKeyHex sha256hex cacheDir cacheTtl
        ownerP repoP versionP assetP headers none getReleaseRes download
        signer rl fs).status =
        (if (rlConsume limit now rl ("anon:" ++ parseForwardedFor isIP
          (headers "x-forwarded-for"))).1.allowed = true then 401
         else 429)) := by
  constructor
  · intro owner repo ho hr
    rcases hal : (rlConsume limit now rl ("anon:" ++ parseForwardedFor isIP
        (headers "x-forwarded-for"))).1.allowed with _ | _
    · rw [releasesHandler_anon_denied limit now isIP hashKeyHex sha256hex
        cacheDir cacheTtl ownerP repoP headers upstream encodeReleases rl
        fs owner repo ho hr hal]
      exact ⟨rfl, by simp⟩
    · rw [releasesHandler_anon_allowed limit now isIP hashKeyHex sha256hex
        cacheDir cacheTtl ownerP repoP headers upstream encodeReleases rl
        fs owner repo ho hr hal]
      exact ⟨rfl, by simp⟩
  · intro owner repo version assetName ho hr hv ha
    rcases hal : (rlConsume limit now rl ("anon:" ++ parseForwardedFor isIP
        (headers "x-forwarded-for"))).1.allowed with _ | _
    · rw [releaseHandler_anon_denied limit now isIP hashKeyHex sha256hex
        cacheDir cacheTtl ownerP repoP versionP assetP headers
        getReleaseRes download signer rl fs owner repo version assetName
        ho hr hv ha hal]
      exact ⟨rfl, by simp⟩
    · rw [releaseHandler_anon_allowed limit now isIP hashKeyHex sha256hex
        cacheDir cacheTtl ownerP repoP versionP assetP headers
        getReleaseRes download signer rl fs owner repo version assetName
        ho hr hv ha hal]
      exact ⟨rfl, by simp⟩

/-- C4 witness: a concrete unauthenticated request with an empty limiter
consumes `anon:0.0.0.0` and responds 401 (the key is within its limit). -/
theorem claim_C4_witness :
    (releasesHandler 60 0 (fun _ => false) (fun _ => "h") (fun _ => "c")
      "/cache" 3600 "acme" "tool" (fun _ => none) none [] (fun _ => [])
      (fun _ => none) (fun _ => none)).rl =
      (rlConsume 60 0 (fun _ => none)
        ("anon:" ++ parseForwardedFor (fun _ => false) none)).2 ∧
    (releasesHandler 60 0 (fun _ => false) (fun _ => "h") (fun _ => "c")
      "/cache" 3600 "acme" "tool" (fun _ => none) none [] (fun _ => [])
      (fun _ => none) (fun _ => none)).status =
      (if (rlConsume 60 0 (fun _ => none)
        ("anon:" ++ parseForwardedFor (fun _ => false) none)).1.allowed = true
       then 401 else 429) :=
  (claim_C4_rate_limit_precedence 60 0 (fun _ => false) (fun _ => "h")
    (fun _ => "c") "/cache" 3600 "acme" "tool" "v1.0.0" "a.tar"
    (fun _ => none) [] (fun _ => []) none (fun _ => none) none
    (fun _ => none) (fun _ => none)).1 "acme" "tool" (by decide) (by decide)
